import Mathlib

/-!
# OpenXR Tutorial, chapter 1: instance and session lifecycle

A shallow embedding of `Tutorial/main.cpp` (class `OpenXRTutorial`): the members of the
class are a structure, the OpenXR runtime is a scripted state that answers and records
every call the class makes, and each member function is a function on the pair.

Conventions of the embedding:

* handles (`XrInstance`, `XrSession`, `XrSystemId`, the debug messenger) are natural
  numbers, `XR_NULL_HANDLE` is `0`;
* `XrResult` and `XrSessionState` are integers with the values of `openxr.h`;
* a name (`std::string`, `const char *`, `char[N]`) is the text in front of its
  terminating NUL;
* `std::cout`/`std::cerr` output is a list of lines carried by the world.
-/

namespace Tutorial

/-! ## Runtime vocabulary (`openxr.h`) -/

abbrev XrResult := Int
abbrev XrSessionState := Int
abbrev XrHandle := Nat

def XR_NULL_HANDLE : XrHandle := 0

def XR_SUCCESS : XrResult := 0
def XR_EVENT_UNAVAILABLE : XrResult := 4
def XR_ERROR_SIZE_INSUFFICIENT : XrResult := -11

/-- The `XR_SUCCEEDED` test of `openxr.h`: a result is a success code when it is not negative. -/
def XR_SUCCEEDED (result : XrResult) : Bool := decide (0 ≤ result)

def XR_SESSION_STATE_UNKNOWN : XrSessionState := 0
def XR_SESSION_STATE_IDLE : XrSessionState := 1
def XR_SESSION_STATE_READY : XrSessionState := 2
def XR_SESSION_STATE_SYNCHRONIZED : XrSessionState := 3
def XR_SESSION_STATE_VISIBLE : XrSessionState := 4
def XR_SESSION_STATE_FOCUSED : XrSessionState := 5
def XR_SESSION_STATE_STOPPING : XrSessionState := 6
def XR_SESSION_STATE_LOSS_PENDING : XrSessionState := 7
def XR_SESSION_STATE_EXITING : XrSessionState := 8

def XR_EXT_DEBUG_UTILS_EXTENSION_NAME : String := "XR_EXT_debug_utils"

structure XrApiLayerProperties where
  layerName : String
  deriving DecidableEq, Repr

structure XrExtensionProperties where
  extensionName : String
  deriving DecidableEq, Repr

/-- The event record filled by `xrPollEvent`, by its `type` tag. `OTHER` stands for every tag
the dispatcher has no case for, the blank `XR_TYPE_EVENT_DATA_BUFFER` included. -/
inductive XrEventDataBuffer where
  | EVENTS_LOST (lostEventCount : Nat)
  | INSTANCE_LOSS_PENDING (lossTime : Int)
  | INTERACTION_PROFILE_CHANGED (session : XrHandle)
  | REFERENCE_SPACE_CHANGE_PENDING (session : XrHandle)
  | SESSION_STATE_CHANGED (session : XrHandle) (state : XrSessionState)
  | OTHER (type : Nat)
  deriving DecidableEq, Repr

def XR_TYPE_EVENT_DATA_BUFFER : Nat := 16

structure XrInstanceCreateInfo where
  applicationName : String
  applicationVersion : Nat
  engineName : String
  engineVersion : Nat
  enabledApiLayerNames : List String
  enabledExtensionNames : List String
  deriving DecidableEq, Repr

/-- One entry of the recorded call sequence: the runtime entry point and what it was given
(for `xrPollEvent`, the event it handed back, if any). -/
inductive XrCall where
  | xrEnumerateApiLayerProperties (propertyCapacityInput : Nat)
  | xrEnumerateInstanceExtensionProperties (propertyCapacityInput : Nat)
  | xrCreateInstance (createInfo : XrInstanceCreateInfo)
  | xrDestroyInstance (instance_ : XrHandle)
  | xrCreateDebugUtilsMessengerEXT (instance_ : XrHandle)
  | xrDestroyDebugUtilsMessengerEXT (messenger : XrHandle)
  | xrGetInstanceProperties (instance_ : XrHandle)
  | xrGetSystem (instance_ : XrHandle)
  | xrGetSystemProperties (instance_ : XrHandle) (systemId : XrHandle)
  | xrCreateSession (instance_ : XrHandle) (systemId : XrHandle)
  | xrDestroySession (session : XrHandle)
  | xrPollEvent (eventData : Option XrEventDataBuffer)
  | xrBeginSession (session : XrHandle)
  | xrEndSession (session : XrHandle)
  deriving DecidableEq, Repr

/-! ## The scripted runtime and the world -/

/-- A scripted runtime. `apiLayers t`, `instanceExtensions t` and `results t` are what the
runtime advertises and answers to the call issued after `t` recorded calls; `eventQueue` is
what `xrPollEvent` hands out now and `laterEvents` the batches that get queued after each
drain; `calls` is the recorded call sequence. The calls the graphics backend object makes
on its own are not part of the record. -/
structure Runtime where
  apiLayers : Nat → List XrApiLayerProperties
  instanceExtensions : Nat → List XrExtensionProperties
  results : Nat → XrResult
  instanceHandle : XrHandle
  systemId : XrHandle
  sessionHandle : XrHandle
  messengerHandle : XrHandle
  runtimeName : String
  runtimeVersion : Nat × Nat × Nat
  eventQueue : List XrEventDataBuffer
  laterEvents : List (List XrEventDataBuffer)
  calls : List XrCall

/-- The data members of `class OpenXRTutorial` the lifecycle code reads or writes. -/
structure OpenXRTutorial where
  m_xrInstance : XrHandle
  m_activeAPILayers : List String
  m_activeInstanceExtensions : List String
  m_apiLayers : List String
  m_instanceExtensions : List String
  m_debugUtilsMessenger : XrHandle
  m_systemID : XrHandle
  m_session : XrHandle
  m_sessionState : XrSessionState
  m_applicationRunning : Bool
  m_sessionRunning : Bool

/-- The default member initialisers of the class. -/
def OpenXRTutorial.constructed : OpenXRTutorial where
  m_xrInstance := 0
  m_activeAPILayers := []
  m_activeInstanceExtensions := []
  m_apiLayers := []
  m_instanceExtensions := []
  m_debugUtilsMessenger := 0
  m_systemID := 0
  m_session := XR_NULL_HANDLE
  m_sessionState := XR_SESSION_STATE_UNKNOWN
  m_applicationRunning := true
  m_sessionRunning := false

/-- Everything a member function can touch: the object, the runtime, the name returned by
`GetGraphicsAPIInstanceExtensionString(m_apiType)`, the platform (`android = none` for a
build without `__ANDROID__`, otherwise the values of `androidApp->destroyRequested != 0`
seen by the successive calls of `PollSystemEvents`) and the lines written so far to
`std::cout` and `std::cerr`. -/
structure World where
  app : OpenXRTutorial
  rt : Runtime
  graphicsExtension : String
  android : Option (List Bool)
  out : List String
  err : List String

/-- Why a run does not return: a failed `OPENXR_CHECK`, or the fuel of a loop ran out. -/
inductive Stop where
  | fatal (message : String)
  | outOfFuel
  deriving DecidableEq, Repr

/-! ## Helper macros and runtime entry points -/

/-- Modelled from the spec: the `OPENXR_CHECK` macro of `OpenXRHelper.h`, which the source file
only uses. A failed runtime call is fatal: the process stops after reporting `message`, and
nothing after the call site runs. -/
def OPENXR_CHECK (result : XrResult) (message : String) (w : World) : Except Stop World :=
  if XR_SUCCEEDED result then .ok w else .error (.fatal message)

/-- The `XR_TUT_LOG` macro: one line on `std::cout`. -/
def XR_TUT_LOG (w : World) (line : String) : World :=
  { w with out := w.out ++ [line] }

/-- The `XR_TUT_LOG_ERROR` macro: one line on `std::cerr`. -/
def XR_TUT_LOG_ERROR (w : World) (line : String) : World :=
  { w with err := w.err ++ [line] }

/-- Character-wise comparison of two texts, the first difference deciding the sign. -/
def strcmpChars : List Char → List Char → Int
  | [], [] => 0
  | [], _ :: _ => -1
  | _ :: _, [] => 1
  | c :: cs, d :: ds =>
    if c = d then strcmpChars cs ds else if c.toNat < d.toNat then -1 else 1

/-- C `strcmp` on names: the sign of the first position where the two names differ, zero
when there is none. -/
def strcmp (a b : String) : Int := strcmpChars a.data b.data

/-- Append a call to the record of the runtime. -/
def World.record (w : World) (call : XrCall) : World :=
  { w with rt := { w.rt with calls := w.rt.calls ++ [call] } }

/-- The answer of the runtime to the call being issued now, when the call can only succeed
or fail. -/
def World.answer (w : World) : XrResult := w.rt.results w.rt.calls.length

/-- The two-call idiom as the runtime implements it: capacity `0` only reports the count;
a capacity below the count is `XR_ERROR_SIZE_INSUFFICIENT`; otherwise the first `count`
slots of the buffer are filled. -/
def twoCall {α : Type} (advertised : List α) (capacityInput : Nat) (buffer : List α) :
    XrResult × Nat × List α :=
  if capacityInput = 0 then (XR_SUCCESS, advertised.length, buffer)
  else if capacityInput < advertised.length then
    (XR_ERROR_SIZE_INSUFFICIENT, advertised.length, buffer)
  else (XR_SUCCESS, advertised.length, advertised ++ buffer.drop advertised.length)

def xrEnumerateApiLayerProperties (w : World) (propertyCapacityInput : Nat)
    (properties : List XrApiLayerProperties) :
    XrResult × Nat × List XrApiLayerProperties × World :=
  let w1 := w.record (.xrEnumerateApiLayerProperties propertyCapacityInput)
  if XR_SUCCEEDED w.answer then
    let r := twoCall (w.rt.apiLayers w.rt.calls.length) propertyCapacityInput properties
    (r.1, r.2.1, r.2.2, w1)
  else (w.answer, propertyCapacityInput, properties, w1)

def xrEnumerateInstanceExtensionProperties (w : World) (propertyCapacityInput : Nat)
    (properties : List XrExtensionProperties) :
    XrResult × Nat × List XrExtensionProperties × World :=
  let w1 := w.record (.xrEnumerateInstanceExtensionProperties propertyCapacityInput)
  if XR_SUCCEEDED w.answer then
    let r := twoCall (w.rt.instanceExtensions w.rt.calls.length) propertyCapacityInput properties
    (r.1, r.2.1, r.2.2, w1)
  else (w.answer, propertyCapacityInput, properties, w1)

def xrCreateInstance (w : World) (createInfo : XrInstanceCreateInfo) : XrResult × World :=
  let w1 := w.record (.xrCreateInstance createInfo)
  if XR_SUCCEEDED w.answer then
    (w.answer, { w1 with app := { w1.app with m_xrInstance := w.rt.instanceHandle } })
  else (w.answer, w1)

/-! ## `OpenXRTutorial::CreateInstance` -/

/-- The inner loop over `apiLayerProperties` for one requested layer (`continue` on a
mismatch, `push_back` and `break` on the first match). -/
def CreateInstance.layerScan (requestLayer : String) :
    List XrApiLayerProperties → List String → List String
  | [], active => active
  | layerProperty :: rest, active =>
    if strcmp requestLayer layerProperty.layerName ≠ 0 then
      CreateInstance.layerScan requestLayer rest active
    else active ++ [requestLayer]

/-- The loop over `m_apiLayers`. -/
def CreateInstance.layerLoop (apiLayerProperties : List XrApiLayerProperties) :
    List String → World → World
  | [], w => w
  | requestLayer :: rest, w =>
    let active := CreateInstance.layerScan requestLayer apiLayerProperties w.app.m_activeAPILayers
    CreateInstance.layerLoop apiLayerProperties rest
      { w with app := { w.app with m_activeAPILayers := active } }

/-- The inner loop over `extensionProperties` for one requested extension; the pair is
`(found, m_activeInstanceExtensions)`. -/
def CreateInstance.extensionScan (requestedInstanceExtension : String) :
    List XrExtensionProperties → Bool × List String → Bool × List String
  | [], state => state
  | extensionProperty :: rest, (found, active) =>
    if strcmp requestedInstanceExtension extensionProperty.extensionName ≠ 0 then
      CreateInstance.extensionScan requestedInstanceExtension rest (found, active)
    else (true, active ++ [requestedInstanceExtension])

/-- The loop over `m_instanceExtensions`, with the error line for a name that was not found. -/
def CreateInstance.extensionLoop (extensionProperties : List XrExtensionProperties) :
    List String → World → World
  | [], w => w
  | requestedInstanceExtension :: rest, w =>
    let r := CreateInstance.extensionScan requestedInstanceExtension extensionProperties
      (false, w.app.m_activeInstanceExtensions)
    let w1 : World := { w with app := { w.app with m_activeInstanceExtensions := r.2 } }
    let w2 := if !r.1 then
        XR_TUT_LOG_ERROR w1
          ("Failed to find OpenXR instance extension: " ++ requestedInstanceExtension)
      else w1
    CreateInstance.extensionLoop extensionProperties rest w2

/-- The application info is recorded with the names and versions the function sets;
`apiVersion` and `createFlags` are left out of the record. -/
def CreateInstance (w : World) : Except Stop World := do
  let w : World := { w with app := { w.app with m_instanceExtensions :=
    (w.app.m_instanceExtensions ++ [XR_EXT_DEBUG_UTILS_EXTENSION_NAME]) ++ [w.graphicsExtension] } }
  -- Get all the API Layers from the OpenXR runtime.
  let q := xrEnumerateApiLayerProperties w 0 []
  let w ← OPENXR_CHECK q.1 "Failed to enumerate ApiLayerProperties." q.2.2.2
  let apiLayerCount := q.2.1
  let apiLayerProperties := List.replicate apiLayerCount (XrApiLayerProperties.mk "")
  let q := xrEnumerateApiLayerProperties w apiLayerCount apiLayerProperties
  let w ← OPENXR_CHECK q.1 "Failed to enumerate ApiLayerProperties." q.2.2.2
  let apiLayerProperties := q.2.2.1
  let w := CreateInstance.layerLoop apiLayerProperties w.app.m_apiLayers w
  -- Get all the Instance Extensions from the OpenXR instance.
  let q := xrEnumerateInstanceExtensionProperties w 0 []
  let w ← OPENXR_CHECK q.1 "Failed to enumerate InstanceExtensionProperties." q.2.2.2
  let extensionCount := q.2.1
  let extensionProperties := List.replicate extensionCount (XrExtensionProperties.mk "")
  let q := xrEnumerateInstanceExtensionProperties w extensionCount extensionProperties
  let w ← OPENXR_CHECK q.1 "Failed to enumerate InstanceExtensionProperties." q.2.2.2
  let extensionProperties := q.2.2.1
  let w := CreateInstance.extensionLoop extensionProperties w.app.m_instanceExtensions w
  let instanceCI : XrInstanceCreateInfo :=
    { applicationName := "OpenXR Tutorial", applicationVersion := 1,
      engineName := "OpenXR Engine", engineVersion := 1,
      enabledApiLayerNames := w.app.m_activeAPILayers,
      enabledExtensionNames := w.app.m_activeInstanceExtensions }
  let q := xrCreateInstance w instanceCI
  OPENXR_CHECK q.1 "Failed to create Instance." q.2

/-! ## Instance, system and session handles -/

def xrDestroyInstance (w : World) (instance_ : XrHandle) : XrResult × World :=
  (w.answer, w.record (.xrDestroyInstance instance_))

def DestroyInstance (w : World) : Except Stop World :=
  let q := xrDestroyInstance w w.app.m_xrInstance
  OPENXR_CHECK q.1 "Failed to destroy Instance." q.2

/-- Modelled from the spec: `CreateOpenXRDebugUtilsMessenger` of `OpenXRDebugUtils.h` is not
part of the source file. One recorded runtime call that yields the messenger handle; like
every creation call its failure is fatal. -/
def CreateOpenXRDebugUtilsMessenger (w : World) (instance_ : XrHandle) :
    Except Stop (XrHandle × World) :=
  let w1 := w.record (.xrCreateDebugUtilsMessengerEXT instance_)
  if XR_SUCCEEDED w.answer then .ok (w.rt.messengerHandle, w1)
  else .error (.fatal "Failed to create DebugUtilsMessenger.")

/-- Modelled from the spec: `DestroyOpenXRDebugUtilsMessenger` of `OpenXRDebugUtils.h` is not
part of the source file. One recorded runtime call; like every destruction call its
failure is fatal. -/
def DestroyOpenXRDebugUtilsMessenger (w : World) (messenger : XrHandle) : Except Stop World :=
  let w1 := w.record (.xrDestroyDebugUtilsMessengerEXT messenger)
  if XR_SUCCEEDED w.answer then .ok w1
  else .error (.fatal "Failed to destroy DebugUtilsMessenger.")

/-- The helper `IsStringInVector`: whether a name occurs in a list of names. -/
def IsStringInVector (list : List String) (name : String) : Bool :=
  list.any (fun item => strcmp name item == 0)

def CreateDebugMessenger (w : World) : Except Stop World :=
  if IsStringInVector w.app.m_activeInstanceExtensions XR_EXT_DEBUG_UTILS_EXTENSION_NAME then
    match CreateOpenXRDebugUtilsMessenger w w.app.m_xrInstance with
    | .ok (messenger, w1) =>
      .ok { w1 with app := { w1.app with m_debugUtilsMessenger := messenger } }
    | .error stop => .error stop
  else .ok w

def DestroyDebugMessenger (w : World) : Except Stop World :=
  if w.app.m_debugUtilsMessenger ≠ XR_NULL_HANDLE then
    DestroyOpenXRDebugUtilsMessenger w w.app.m_debugUtilsMessenger
  else .ok w

def xrGetInstanceProperties (w : World) (instance_ : XrHandle) : XrResult × World :=
  (w.answer, w.record (.xrGetInstanceProperties instance_))

def GetInstanceProperties (w : World) : Except Stop World := do
  let q := xrGetInstanceProperties w w.app.m_xrInstance
  let w ← OPENXR_CHECK q.1 "Failed to get InstanceProperties." q.2
  pure (XR_TUT_LOG w ("OpenXR Runtime: " ++ w.rt.runtimeName ++ " - "
    ++ toString w.rt.runtimeVersion.1 ++ "." ++ toString w.rt.runtimeVersion.2.1 ++ "."
    ++ toString w.rt.runtimeVersion.2.2))

def xrGetSystem (w : World) (instance_ : XrHandle) : XrResult × World :=
  let w1 := w.record (.xrGetSystem instance_)
  if XR_SUCCEEDED w.answer then
    (w.answer, { w1 with app := { w1.app with m_systemID := w.rt.systemId } })
  else (w.answer, w1)

def xrGetSystemProperties (w : World) (instance_ systemId : XrHandle) : XrResult × World :=
  (w.answer, w.record (.xrGetSystemProperties instance_ systemId))

def GetSystemID (w : World) : Except Stop World := do
  let q := xrGetSystem w w.app.m_xrInstance
  let w ← OPENXR_CHECK q.1 "Failed to get SystemID." q.2
  let q := xrGetSystemProperties w w.app.m_xrInstance w.app.m_systemID
  OPENXR_CHECK q.1 "Failed to get SystemProperties." q.2

def xrCreateSession (w : World) (instance_ systemId : XrHandle) : XrResult × World :=
  let w1 := w.record (.xrCreateSession instance_ systemId)
  if XR_SUCCEEDED w.answer then
    (w.answer, { w1 with app := { w1.app with m_session := w.rt.sessionHandle } })
  else (w.answer, w1)

/-- The graphics backend object built here is outside the embedding; only its binding is
passed on, unread. -/
def CreateSession (w : World) : Except Stop World :=
  let q := xrCreateSession w w.app.m_xrInstance w.app.m_systemID
  OPENXR_CHECK q.1 "Failed to create Session." q.2

def xrDestroySession (w : World) (session : XrHandle) : XrResult × World :=
  (w.answer, w.record (.xrDestroySession session))

def DestroySession (w : World) : Except Stop World :=
  let q := xrDestroySession w w.app.m_session
  OPENXR_CHECK q.1 "Failed to destroy Session." q.2

/-! ## `OpenXRTutorial::PollEvents` -/

/-- The runtime side of `xrPollEvent`: the head of the queue with `XR_SUCCESS`, or
`XR_EVENT_UNAVAILABLE` and an untouched buffer when the queue is empty (the next scripted
batch is queued then, for the next drain). -/
def xrPollEvent (w : World) : XrResult × XrEventDataBuffer × World :=
  if XR_SUCCEEDED w.answer then
    match w.rt.eventQueue with
    | eventData :: rest =>
      (XR_SUCCESS, eventData,
        { w with rt := { w.rt with
            eventQueue := rest, calls := w.rt.calls ++ [.xrPollEvent (some eventData)] } })
    | [] =>
      (XR_EVENT_UNAVAILABLE, .OTHER XR_TYPE_EVENT_DATA_BUFFER,
        { w with rt := { w.rt with
            eventQueue := w.rt.laterEvents.headD [], laterEvents := w.rt.laterEvents.tail,
            calls := w.rt.calls ++ [.xrPollEvent none] } })
  else (w.answer, .OTHER XR_TYPE_EVENT_DATA_BUFFER, w.record (.xrPollEvent none))

def xrBeginSession (w : World) (session : XrHandle) : XrResult × World :=
  (w.answer, w.record (.xrBeginSession session))

def xrEndSession (w : World) (session : XrHandle) : XrResult × World :=
  (w.answer, w.record (.xrEndSession session))

/-- The `XR_TYPE_EVENT_DATA_SESSION_STATE_CHANGED` case once the session is known to be the
owned one: four independent tests on the new state, then the state is stored. -/
def PollEvents.sessionStateChanged (w : World) (state : XrSessionState) : Except Stop World :=
  (if state = XR_SESSION_STATE_READY then
      OPENXR_CHECK (xrBeginSession w w.app.m_session).1 "Failed to begin Session."
        (xrBeginSession w w.app.m_session).2 >>= fun w =>
      .ok { w with app := { w.app with m_sessionRunning := true } }
    else .ok w) >>= fun w =>
  (if state = XR_SESSION_STATE_STOPPING then
      OPENXR_CHECK (xrEndSession w w.app.m_session).1 "Failed to end Session."
        (xrEndSession w w.app.m_session).2 >>= fun w =>
      .ok { w with app := { w.app with m_sessionRunning := false } }
    else .ok w) >>= fun w =>
  let w : World :=
    if state = XR_SESSION_STATE_EXITING then
      { w with app := { w.app with m_sessionRunning := false, m_applicationRunning := false } }
    else w
  let w : World :=
    if state = XR_SESSION_STATE_LOSS_PENDING then
      { w with app := { w.app with m_sessionRunning := false, m_applicationRunning := false } }
    else w
  .ok { w with app := { w.app with m_sessionState := state } }

/-- The `switch (eventData.type)` of `PollEvents`, for one polled event. -/
def PollEvents.dispatch (w : World) : XrEventDataBuffer → Except Stop World
  | .EVENTS_LOST lostEventCount =>
    .ok (XR_TUT_LOG w ("OPENXR: Events Lost: " ++ toString lostEventCount))
  | .INSTANCE_LOSS_PENDING lossTime =>
    let w := XR_TUT_LOG w ("OPENXR: Instance Loss Pending at: " ++ toString lossTime)
    .ok { w with app := { w.app with m_sessionRunning := false, m_applicationRunning := false } }
  | .INTERACTION_PROFILE_CHANGED session =>
    let w := XR_TUT_LOG w
      ("OPENXR: Interaction Profile changed for Session: " ++ toString session)
    if session ≠ w.app.m_session then
      .ok (XR_TUT_LOG w "XrEventDataInteractionProfileChanged for unknown Session")
    else .ok w
  | .REFERENCE_SPACE_CHANGE_PENDING session =>
    let w := XR_TUT_LOG w
      ("OPENXR: Reference Space Change pending for Session: " ++ toString session)
    if session ≠ w.app.m_session then
      .ok (XR_TUT_LOG w "XrEventDataReferenceSpaceChangePending for unknown Session")
    else .ok w
  | .SESSION_STATE_CHANGED session state =>
    if session ≠ w.app.m_session then
      .ok (XR_TUT_LOG w "XrEventDataSessionStateChanged for unknown Session")
    else PollEvents.sessionStateChanged w state
  | .OTHER _ => .ok w

/-- The `while (XrPollEvents())` loop: poll, stop at the first result that is not
`XR_SUCCESS`, otherwise dispatch the event and poll again. -/
def PollEvents.loop : Nat → World → Except Stop World
  | 0, _ => .error .outOfFuel
  | fuel + 1, w =>
    let q := xrPollEvent w
    if q.1 = XR_SUCCESS then
      match PollEvents.dispatch q.2.2 q.2.1 with
      | .ok w1 => PollEvents.loop fuel w1
      | .error stop => .error stop
    else .ok q.2.2

def PollEvents (fuel : Nat) (w : World) : Except Stop World := PollEvents.loop fuel w

/-! ## `OpenXRTutorial::PollSystemEvents` and `OpenXRTutorial::Run` -/

/-- Without `__ANDROID__` the function returns at once. With it, a pending destroy request
clears `m_applicationRunning`; otherwise the pending OS events are processed, which touches
no member of the class. An exhausted script stands for no destroy request. -/
def PollSystemEvents (w : World) : World :=
  match w.android with
  | none => w
  | some [] => w
  | some (destroyRequested :: later) =>
    if destroyRequested then
      { w with app := { w.app with m_applicationRunning := false }, android := some later }
    else { w with android := some later }

/-- The `while (m_applicationRunning)` loop of `Run`; `pollFuel` bounds each drain and the
second argument the number of ticks. The body of `if (m_sessionRunning)` is empty in the
source (the frame is not drawn yet), so it leaves no trace here. -/
def Run.loop (pollFuel : Nat) : Nat → World → Except Stop World
  | 0, _ => .error .outOfFuel
  | ticks + 1, w =>
    if w.app.m_applicationRunning then
      match PollEvents pollFuel (PollSystemEvents w) with
      | .ok w1 => Run.loop pollFuel ticks w1
      | .error stop => .error stop
    else .ok w

/-- Everything `Run` does before the session is torn down. -/
def Run.untilTeardown (fuel : Nat) (w : World) : Except Stop World := do
  let w ← CreateInstance w
  let w ← CreateDebugMessenger w
  let w ← GetInstanceProperties w
  let w ← GetSystemID w
  let w ← CreateSession w
  Run.loop fuel fuel w

/-- The three teardown calls at the end of `Run`. -/
def Run.teardown (w : World) : Except Stop World := do
  let w ← DestroySession w
  let w ← DestroyDebugMessenger w
  DestroyInstance w

def Run (fuel : Nat) (w : World) : Except Stop World := do
  let w ← Run.untilTeardown fuel w
  Run.teardown w

/-! ## Vocabulary of the claims, functional descriptions and example worlds -/

/-- The names a runtime advertises for its layers. -/
def layerNames (properties : List XrApiLayerProperties) : List String :=
  properties.map (fun p => p.layerName)

/-- The names a runtime advertises for its instance extensions. -/
def extensionNames (properties : List XrExtensionProperties) : List String :=
  properties.map (fun p => p.extensionName)

/-- The requested names that are advertised, in the order of the request. -/
def restrictTo (requested advertised : List String) : List String :=
  requested.filter (fun name => decide (name ∈ advertised))

/-- The requested names that are not advertised, in the order of the request. -/
def missingFrom (requested advertised : List String) : List String :=
  requested.filter (fun name => !decide (name ∈ advertised))

/-- The error line written for a requested extension the runtime does not advertise. -/
def missingLine (name : String) : String :=
  "Failed to find OpenXR instance extension: " ++ name

/-- Every answer of the script is a success code. -/
def Runtime.succeeds (rt : Runtime) : Prop := ∀ t, XR_SUCCEEDED (rt.results t) = true

/-- The runtime advertises the same layers and the same extensions at every call. -/
def Runtime.advertises (rt : Runtime) (layers : List XrApiLayerProperties)
    (extensions : List XrExtensionProperties) : Prop :=
  (∀ t, rt.apiLayers t = layers) ∧ ∀ t, rt.instanceExtensions t = extensions

/-- The requested extension list the negotiation works on: the member as it stands plus the
two names `CreateInstance` pushes. -/
def requestedExtensions (w : World) : List String :=
  (w.app.m_instanceExtensions ++ [XR_EXT_DEBUG_UTILS_EXTENSION_NAME]) ++ [w.graphicsExtension]

/-- The create-info `CreateInstance` hands to `xrCreateInstance`. -/
def instanceCreateInfo (layers extensions : List String) : XrInstanceCreateInfo :=
  { applicationName := "OpenXR Tutorial", applicationVersion := 1,
    engineName := "OpenXR Engine", engineVersion := 1,
    enabledApiLayerNames := layers, enabledExtensionNames := extensions }

/-- What one polled event does to the members when the runtime calls it triggers succeed. -/
def react (app : OpenXRTutorial) : XrEventDataBuffer → OpenXRTutorial
  | .INSTANCE_LOSS_PENDING _ =>
    { app with m_sessionRunning := false, m_applicationRunning := false }
  | .SESSION_STATE_CHANGED session state =>
    if session ≠ app.m_session then app
    else
      let app := if state = XR_SESSION_STATE_READY then
        { app with m_sessionRunning := true } else app
      let app := if state = XR_SESSION_STATE_STOPPING then
        { app with m_sessionRunning := false } else app
      let app := if state = XR_SESSION_STATE_EXITING then
        { app with m_sessionRunning := false, m_applicationRunning := false } else app
      let app := if state = XR_SESSION_STATE_LOSS_PENDING then
        { app with m_sessionRunning := false, m_applicationRunning := false } else app
      { app with m_sessionState := state }
  | _ => app

/-- The begin and end calls one polled event triggers. -/
def sessionCalls (app : OpenXRTutorial) : XrEventDataBuffer → List XrCall
  | .SESSION_STATE_CHANGED session state =>
    if session ≠ app.m_session then []
    else
      (if state = XR_SESSION_STATE_READY then [.xrBeginSession app.m_session] else []) ++
      (if state = XR_SESSION_STATE_STOPPING then [.xrEndSession app.m_session] else [])
  | _ => []

/-- The lines one polled event writes to `std::cout`. -/
def eventLines (app : OpenXRTutorial) : XrEventDataBuffer → List String
  | .EVENTS_LOST lostEventCount => ["OPENXR: Events Lost: " ++ toString lostEventCount]
  | .INSTANCE_LOSS_PENDING lossTime =>
    ["OPENXR: Instance Loss Pending at: " ++ toString lossTime]
  | .INTERACTION_PROFILE_CHANGED session =>
    ["OPENXR: Interaction Profile changed for Session: " ++ toString session] ++
      (if session ≠ app.m_session then
        ["XrEventDataInteractionProfileChanged for unknown Session"] else [])
  | .REFERENCE_SPACE_CHANGE_PENDING session =>
    ["OPENXR: Reference Space Change pending for Session: " ++ toString session] ++
      (if session ≠ app.m_session then
        ["XrEventDataReferenceSpaceChangePending for unknown Session"] else [])
  | .SESSION_STATE_CHANGED session _ =>
    if session ≠ app.m_session then ["XrEventDataSessionStateChanged for unknown Session"]
    else []
  | .OTHER _ => []

/-- The calls one drain records for the events it finds queued: a poll per event, each
followed by the session call the event triggers, and the final poll that finds nothing. -/
def drainCalls (app : OpenXRTutorial) : List XrEventDataBuffer → List XrCall
  | [] => [.xrPollEvent none]
  | eventData :: rest =>
    .xrPollEvent (some eventData) ::
      (sessionCalls app eventData ++ drainCalls (react app eventData) rest)

/-- The lines one drain writes for the events it finds queued. -/
def drainLines (app : OpenXRTutorial) : List XrEventDataBuffer → List String
  | [] => []
  | eventData :: rest => eventLines app eventData ++ drainLines (react app eventData) rest

/-- The world a drain of the queued events ends in when every call succeeds. -/
def drained (w : World) : World :=
  { w with
    app := w.rt.eventQueue.foldl react w.app
    rt := { w.rt with
      eventQueue := w.rt.laterEvents.headD []
      laterEvents := w.rt.laterEvents.tail
      calls := w.rt.calls ++ drainCalls w.app w.rt.eventQueue }
    out := w.out ++ drainLines w.app w.rt.eventQueue }

/-- A `SessionStateChanged(Ready)` event for the session `session`. -/
abbrev IsReady (session : XrHandle) (eventData : XrEventDataBuffer) : Prop :=
  eventData = .SESSION_STATE_CHANGED session XR_SESSION_STATE_READY

/-- A `SessionStateChanged(Stopping)` event for the session `session`. -/
abbrev IsStopping (session : XrHandle) (eventData : XrEventDataBuffer) : Prop :=
  eventData = .SESSION_STATE_CHANGED session XR_SESSION_STATE_STOPPING

/-- A `SessionStateChanged` event for the session `session` that carries Stopping, Exiting
or LossPending. -/
abbrev IsStop (session : XrHandle) (eventData : XrEventDataBuffer) : Prop :=
  eventData = .SESSION_STATE_CHANGED session XR_SESSION_STATE_STOPPING ∨
  eventData = .SESSION_STATE_CHANGED session XR_SESSION_STATE_EXITING ∨
  eventData = .SESSION_STATE_CHANGED session XR_SESSION_STATE_LOSS_PENDING

/-- A state-affecting event: `SessionStateChanged` for the session `session` carrying Ready,
Stopping, Exiting or LossPending. -/
abbrev IsStateAffecting (session : XrHandle) (eventData : XrEventDataBuffer) : Prop :=
  IsReady session eventData ∨ IsStop session eventData

/-- Whether the event is an `InstanceLossPending` event. -/
def isInstanceLoss : XrEventDataBuffer → Bool
  | .INSTANCE_LOSS_PENDING _ => true
  | _ => false

/-- A terminal event: `InstanceLossPending`, or `SessionStateChanged` for the session
`session` carrying Exiting or LossPending. -/
abbrev IsTerminal (session : XrHandle) (eventData : XrEventDataBuffer) : Prop :=
  isInstanceLoss eventData = true ∨
  eventData = .SESSION_STATE_CHANGED session XR_SESSION_STATE_EXITING ∨
  eventData = .SESSION_STATE_CHANGED session XR_SESSION_STATE_LOSS_PENDING

/-- The state an event carries for the session `session`, if it is a `SessionStateChanged`
event for that session. -/
def ownedState (session : XrHandle) : XrEventDataBuffer → Option XrSessionState
  | .SESSION_STATE_CHANGED s state => if s = session then some state else none
  | _ => none

/-- The events the polls of a call record handed back, one entry per `xrPollEvent` call
(`none` for a poll that found nothing). -/
def polled (calls : List XrCall) : List (Option XrEventDataBuffer) :=
  calls.filterMap (fun call => match call with
    | .xrPollEvent eventData => some eventData
    | _ => none)

/-- The `xrBeginSession` and `xrEndSession` calls of a call record, in order. -/
def beginEndCalls (calls : List XrCall) : List XrCall :=
  calls.filter (fun call => match call with
    | .xrBeginSession _ => true
    | .xrEndSession _ => true
    | _ => false)

/-- A runtime whose every call succeeds, with fixed handles, advertising the given layers and
extensions and holding the given events. -/
def mockRuntime (layers : List XrApiLayerProperties) (extensions : List XrExtensionProperties)
    (queue : List XrEventDataBuffer) (later : List (List XrEventDataBuffer)) : Runtime :=
  { apiLayers := fun _ => layers, instanceExtensions := fun _ => extensions,
    results := fun _ => XR_SUCCESS, instanceHandle := 1, systemId := 2, sessionHandle := 3,
    messengerHandle := 4, runtimeName := "mock", runtimeVersion := (1, 0, 0),
    eventQueue := queue, laterEvents := later, calls := [] }

/-- A freshly constructed object in front of a mock runtime, on a build without
`__ANDROID__`. -/
def freshWorld (requested : List String) (layers : List XrApiLayerProperties)
    (extensions : List XrExtensionProperties) (queue : List XrEventDataBuffer)
    (later : List (List XrEventDataBuffer)) : World :=
  { app := { OpenXRTutorial.constructed with m_instanceExtensions := requested },
    rt := mockRuntime layers extensions queue later,
    graphicsExtension := "XR_KHR_vulkan_enable", android := none, out := [], err := [] }

/-- The object once its session (handle `3`) exists, with the given events queued. -/
def sessionWorld (queue : List XrEventDataBuffer) : World :=
  { app := { OpenXRTutorial.constructed with m_xrInstance := 1, m_systemID := 2, m_session := 3 },
    rt := mockRuntime [] [] queue [],
    graphicsExtension := "XR_KHR_vulkan_enable", android := none, out := [], err := [] }

/-- The session call an event triggers for the session `session`: `xrBeginSession` for a
Ready event of that session, `xrEndSession` for a Stopping event of that session, none
otherwise. -/
def triggered (session : XrHandle) (eventData : XrEventDataBuffer) : Option XrCall :=
  if IsReady session eventData then some (.xrBeginSession session)
  else if IsStopping session eventData then some (.xrEndSession session)
  else none

/-- Whether a recorded call is an `xrBeginSession` call. -/
def isBeginCall : XrCall → Bool
  | .xrBeginSession _ => true
  | _ => false

/-- Whether a recorded call is an `xrEndSession` call. -/
def isEndCall : XrCall → Bool
  | .xrEndSession _ => true
  | _ => false

/-- The calls `Run` makes before its loop. -/
def isSetupCall : XrCall → Bool
  | .xrEnumerateApiLayerProperties _ => true
  | .xrEnumerateInstanceExtensionProperties _ => true
  | .xrCreateInstance _ => true
  | .xrCreateDebugUtilsMessengerEXT _ => true
  | .xrGetInstanceProperties _ => true
  | .xrGetSystem _ => true
  | .xrGetSystemProperties _ _ => true
  | .xrCreateSession _ _ => true
  | _ => false

/-- The calls `PollEvents` makes: `xrPollEvent`, `xrBeginSession`, `xrEndSession`. -/
def isLoopCall : XrCall → Bool
  | .xrPollEvent _ => true
  | .xrBeginSession _ => true
  | .xrEndSession _ => true
  | _ => false

/-- Whether a recorded call is an `xrDestroySession` call. -/
def isDestroySession : XrCall → Bool
  | .xrDestroySession _ => true
  | _ => false

/-- Whether a recorded call is an `xrDestroyInstance` call. -/
def isDestroyInstance : XrCall → Bool
  | .xrDestroyInstance _ => true
  | _ => false

/-- One stretch of a run: the script of answers, the flag `m_applicationRunning` and the
platform are untouched, and the calls recorded meanwhile all satisfy `kind`. -/
def Step (kind : XrCall → Bool) (v v1 : World) : Prop :=
  v1.rt.results = v.rt.results ∧
  (∃ added, v1.rt.calls = v.rt.calls ++ added ∧ ∀ c ∈ added, kind c = true) ∧
  v1.app.m_applicationRunning = v.app.m_applicationRunning ∧
  v1.android = v.android

/-- The calls between `xrDestroySession` and `xrDestroyInstance`: the destruction of the
debug messenger, when there is one. -/
def messengerTeardown (app : OpenXRTutorial) : List XrCall :=
  if app.m_debugUtilsMessenger ≠ XR_NULL_HANDLE then
    [.xrDestroyDebugUtilsMessengerEXT app.m_debugUtilsMessenger]
  else []

/-- A fresh object in front of a mock runtime that advertises the debug extension, has a
Ready event queued and queues nothing at the second tick, then Stopping and Exiting. -/
def lifecycleWorld : World :=
  freshWorld [] [] [⟨"XR_EXT_debug_utils"⟩]
    [.SESSION_STATE_CHANGED 3 XR_SESSION_STATE_READY]
    [[], [.SESSION_STATE_CHANGED 3 XR_SESSION_STATE_STOPPING,
          .SESSION_STATE_CHANGED 3 XR_SESSION_STATE_EXITING]]

/-- The event sequence Ready, Synchronized, Stopping on the owned session `3`. -/
def readySynchronizedStopping : List XrEventDataBuffer :=
  [.SESSION_STATE_CHANGED 3 XR_SESSION_STATE_READY,
   .SESSION_STATE_CHANGED 3 XR_SESSION_STATE_SYNCHRONIZED,
   .SESSION_STATE_CHANGED 3 XR_SESSION_STATE_STOPPING]

/-- A stretch that records begin or end calls at most (no poll) and leaves `m_session`,
`m_applicationRunning` and the platform alone. -/
def Quiet (v v1 : World) : Prop :=
  (∃ added, v1.rt.calls = v.rt.calls ++ added ∧ (∀ c ∈ added, isLoopCall c = true) ∧
    polled added = []) ∧
  v1.app.m_session = v.app.m_session ∧ v1.android = v.android ∧
  v1.app.m_applicationRunning = v.app.m_applicationRunning

/-- What the dispatch of one event leaves behind, whatever the runtime answers: begin or
end calls at most, `m_session` and the platform untouched, and `m_applicationRunning`
cleared only if `terminal` holds. -/
def Dispatched (terminal : Prop) (v v1 : World) : Prop :=
  (∃ added, v1.rt.calls = v.rt.calls ++ added ∧ (∀ c ∈ added, isLoopCall c = true) ∧
    polled added = []) ∧
  v1.app.m_session = v.app.m_session ∧ v1.android = v.android ∧
  (v1.app.m_applicationRunning = false → v.app.m_applicationRunning = false ∨ terminal)

/-- What a stretch of polling has done, whatever the runtime answers: it recorded `added`,
polls, begin and end calls only; it left `m_session` and the platform alone; and it cleared
`m_applicationRunning` only if one of its polls handed back a terminal event. -/
def Looped (v v1 : World) (added : List XrCall) : Prop :=
  v1.rt.calls = v.rt.calls ++ added ∧ (∀ c ∈ added, isLoopCall c = true) ∧
  v1.app.m_session = v.app.m_session ∧ v1.android = v.android ∧
  (v1.app.m_applicationRunning = false →
    v.app.m_applicationRunning = false ∨
      ∃ e, some e ∈ polled added ∧ IsTerminal v.app.m_session e)

/-- The fill call rejects the capacity it is given: the size query counted `atQuery`, a
count that is not zero, and the runtime advertises more than that by the time of the fill
call. -/
abbrev CapacityRefused {α : Type} (atQuery atFill : List α) : Prop :=
  0 < atQuery.length ∧ atQuery.length < atFill.length

/-- The buffer after a fill call that is not refused: sized by the count of the size query,
it holds what the runtime advertises at the fill call and blank entries behind; it is empty
when the size query counted nothing, the second call being a size query again then. -/
def staleBuffer {α : Type} (blank : α) (atQuery atFill : List α) : List α :=
  if atQuery.length = 0 then []
  else atFill ++ List.replicate (atQuery.length - atFill.length) blank

/-- The reason a call did not return, if it did not. -/
def failure (outcome : Except Stop World) : Option Stop :=
  match outcome with
  | .error stop => some stop
  | .ok _ => none

/-- A fresh object in front of a runtime whose calls succeed and whose advertised extension
list is `atQuery` at the size query (the third call of `CreateInstance`) and `atFill` at
every other call. -/
def driftingWorld (requested : List String) (atQuery atFill : List XrExtensionProperties) :
    World :=
  { app := { OpenXRTutorial.constructed with m_instanceExtensions := requested },
    rt := { mockRuntime [] [] [] [] with
      instanceExtensions := fun t => if t = 2 then atQuery else atFill },
    graphicsExtension := "XR_KHR_vulkan_enable", android := none, out := [], err := [] }

/-! ## Capability negotiation -/

theorem strcmpChars_eq_zero (a b : List Char) : strcmpChars a b = 0 ↔ a = b := by
  induction a generalizing b with
  | nil => cases b <;> simp [strcmpChars]
  | cons c cs ih =>
    cases b with
    | nil => simp [strcmpChars]
    | cons d ds =>
      by_cases hcd : c = d
      · simp [strcmpChars, hcd, ih]
      · by_cases hlt : c.toNat < d.toNat <;> simp [strcmpChars, hcd, hlt]

theorem strcmp_eq_zero (a b : String) : strcmp a b = 0 ↔ a = b := by
  unfold strcmp
  rw [strcmpChars_eq_zero]
  constructor
  · intro h
    exact String.ext h
  · intro h
    rw [h]

theorem layerScan_eq (requestLayer : String) (properties : List XrApiLayerProperties)
    (active : List String) :
    CreateInstance.layerScan requestLayer properties active =
      if requestLayer ∈ layerNames properties then active ++ [requestLayer] else active := by
  induction properties with
  | nil => simp [CreateInstance.layerScan, layerNames]
  | cons p rest ih =>
    by_cases h : requestLayer = p.layerName
    · subst h
      simp [CreateInstance.layerScan, layerNames, (strcmp_eq_zero _ _).2 rfl]
    · have h0 : strcmp requestLayer p.layerName ≠ 0 := fun e => h ((strcmp_eq_zero _ _).1 e)
      simp only [CreateInstance.layerScan, h0, ne_eq, not_false_eq_true, if_true, ih]
      simp [layerNames, h]

theorem extensionScan_eq (requested : String) (properties : List XrExtensionProperties)
    (found : Bool) (active : List String) :
    CreateInstance.extensionScan requested properties (found, active) =
      if requested ∈ extensionNames properties then (true, active ++ [requested])
      else (found, active) := by
  induction properties with
  | nil => simp [CreateInstance.extensionScan, extensionNames]
  | cons p rest ih =>
    by_cases h : requested = p.extensionName
    · subst h
      simp [CreateInstance.extensionScan, extensionNames, (strcmp_eq_zero _ _).2 rfl]
    · have h0 : strcmp requested p.extensionName ≠ 0 := fun e => h ((strcmp_eq_zero _ _).1 e)
      simp only [CreateInstance.extensionScan, h0, ne_eq, not_false_eq_true, if_true, ih]
      simp [extensionNames, h]

theorem layerLoop_eq (properties : List XrApiLayerProperties) (requested : List String)
    (w : World) :
    CreateInstance.layerLoop properties requested w =
      { w with app := { w.app with m_activeAPILayers :=
          w.app.m_activeAPILayers ++ restrictTo requested (layerNames properties) } } := by
  induction requested generalizing w with
  | nil => simp [CreateInstance.layerLoop, restrictTo]
  | cons r rest ih =>
    simp only [CreateInstance.layerLoop, ih, layerScan_eq]
    by_cases h : r ∈ layerNames properties <;> simp [restrictTo, h]

theorem extensionLoop_eq (properties : List XrExtensionProperties) (requested : List String)
    (w : World) :
    CreateInstance.extensionLoop properties requested w =
      { w with
        app := { w.app with m_activeInstanceExtensions :=
          w.app.m_activeInstanceExtensions ++ restrictTo requested (extensionNames properties) }
        err := w.err ++ (missingFrom requested (extensionNames properties)).map missingLine } := by
  induction requested generalizing w with
  | nil => simp [CreateInstance.extensionLoop, restrictTo, missingFrom]
  | cons r rest ih =>
    simp only [CreateInstance.extensionLoop, ih, extensionScan_eq]
    by_cases h : r ∈ extensionNames properties <;>
      simp [restrictTo, missingFrom, h, XR_TUT_LOG_ERROR, missingLine]

theorem XR_SUCCEEDED_SUCCESS : XR_SUCCEEDED XR_SUCCESS = true := by decide

theorem twoCall_query {α : Type} (advertised : List α) :
    twoCall advertised 0 [] = (XR_SUCCESS, advertised.length, []) := by
  simp [twoCall]

theorem twoCall_fill {α : Type} (advertised : List α) (blank : α) :
    twoCall advertised advertised.length (List.replicate advertised.length blank) =
      (XR_SUCCESS, advertised.length, advertised) := by
  cases advertised with
  | nil => simp [twoCall]
  | cons a rest => simp [twoCall]

theorem CreateInstance_ok (w : World) (layers : List XrApiLayerProperties)
    (extensions : List XrExtensionProperties)
    (hok : w.rt.succeeds) (hadv : w.rt.advertises layers extensions) :
    CreateInstance w = .ok
      { w with
        app := { w.app with
          m_instanceExtensions := requestedExtensions w
          m_activeAPILayers :=
            w.app.m_activeAPILayers ++ restrictTo w.app.m_apiLayers (layerNames layers)
          m_activeInstanceExtensions := w.app.m_activeInstanceExtensions ++
            restrictTo (requestedExtensions w) (extensionNames extensions)
          m_xrInstance := w.rt.instanceHandle }
        rt := { w.rt with calls := w.rt.calls ++
          [.xrEnumerateApiLayerProperties 0, .xrEnumerateApiLayerProperties layers.length,
           .xrEnumerateInstanceExtensionProperties 0,
           .xrEnumerateInstanceExtensionProperties extensions.length,
           .xrCreateInstance (instanceCreateInfo
              (w.app.m_activeAPILayers ++ restrictTo w.app.m_apiLayers (layerNames layers))
              (w.app.m_activeInstanceExtensions ++
                restrictTo (requestedExtensions w) (extensionNames extensions)))] }
        err := w.err ++
          (missingFrom (requestedExtensions w) (extensionNames extensions)).map missingLine } := by
  obtain ⟨hL, hA⟩ := hadv
  have hok1 : ∀ t, XR_SUCCEEDED (w.rt.results t) = true := hok
  simp [CreateInstance, xrEnumerateApiLayerProperties, xrEnumerateInstanceExtensionProperties,
    xrCreateInstance, World.answer, World.record, OPENXR_CHECK, hok1, hL, hA, twoCall_query,
    XR_SUCCEEDED_SUCCESS,
    twoCall_fill, bind, Except.bind, layerLoop_eq, extensionLoop_eq, requestedExtensions,
    instanceCreateInfo]

/-! ## Event dispatch when every call succeeds -/

theorem sessionStateChanged_ok (w : World) (state : XrSessionState) (hok : w.rt.succeeds) :
    PollEvents.sessionStateChanged w state = .ok
      { w with
        app := react w.app (.SESSION_STATE_CHANGED w.app.m_session state)
        rt := { w.rt with
          calls := w.rt.calls ++
            sessionCalls w.app (.SESSION_STATE_CHANGED w.app.m_session state) } } := by
  have hok1 : ∀ t, XR_SUCCEEDED (w.rt.results t) = true := hok
  by_cases h1 : state = XR_SESSION_STATE_READY
  · subst h1
    simp [PollEvents.sessionStateChanged, react, sessionCalls, xrBeginSession, xrEndSession,
      World.answer, World.record, OPENXR_CHECK, hok1, bind, Except.bind, pure, Except.pure,
      XR_SESSION_STATE_READY, XR_SESSION_STATE_STOPPING, XR_SESSION_STATE_EXITING,
      XR_SESSION_STATE_LOSS_PENDING]
  · by_cases h2 : state = XR_SESSION_STATE_STOPPING
    · subst h2
      simp [PollEvents.sessionStateChanged, react, sessionCalls, xrBeginSession, xrEndSession,
        World.answer, World.record, OPENXR_CHECK, hok1, bind, Except.bind, pure, Except.pure,
        XR_SESSION_STATE_READY, XR_SESSION_STATE_STOPPING, XR_SESSION_STATE_EXITING,
        XR_SESSION_STATE_LOSS_PENDING]
    · by_cases h3 : state = XR_SESSION_STATE_EXITING
      · subst h3
        simp [PollEvents.sessionStateChanged, react, sessionCalls, bind, Except.bind, pure,
          Except.pure, XR_SESSION_STATE_READY, XR_SESSION_STATE_STOPPING,
          XR_SESSION_STATE_EXITING, XR_SESSION_STATE_LOSS_PENDING]
      · by_cases h4 : state = XR_SESSION_STATE_LOSS_PENDING
        · subst h4
          simp [PollEvents.sessionStateChanged, react, sessionCalls, bind, Except.bind, pure,
            Except.pure, XR_SESSION_STATE_READY, XR_SESSION_STATE_STOPPING,
            XR_SESSION_STATE_EXITING, XR_SESSION_STATE_LOSS_PENDING]
        · simp [PollEvents.sessionStateChanged, react, sessionCalls, bind, Except.bind, pure,
            Except.pure, h1, h2, h3, h4]

theorem dispatch_ok (w : World) (eventData : XrEventDataBuffer) (hok : w.rt.succeeds) :
    PollEvents.dispatch w eventData = .ok
      { w with
        app := react w.app eventData
        rt := { w.rt with calls := w.rt.calls ++ sessionCalls w.app eventData }
        out := w.out ++ eventLines w.app eventData } := by
  cases eventData with
  | EVENTS_LOST n => simp [PollEvents.dispatch, react, sessionCalls, eventLines, XR_TUT_LOG]
  | INSTANCE_LOSS_PENDING t =>
    simp [PollEvents.dispatch, react, sessionCalls, eventLines, XR_TUT_LOG]
  | INTERACTION_PROFILE_CHANGED session =>
    by_cases h : session = w.app.m_session <;>
      simp [PollEvents.dispatch, react, sessionCalls, eventLines, XR_TUT_LOG, h]
  | REFERENCE_SPACE_CHANGE_PENDING session =>
    by_cases h : session = w.app.m_session <;>
      simp [PollEvents.dispatch, react, sessionCalls, eventLines, XR_TUT_LOG, h]
  | SESSION_STATE_CHANGED session state =>
    by_cases h : session = w.app.m_session
    · subst h
      simp only [PollEvents.dispatch, ne_eq, not_true_eq_false, if_false,
        sessionStateChanged_ok w state hok, eventLines, List.append_nil]
    · simp [PollEvents.dispatch, react, sessionCalls, eventLines, XR_TUT_LOG, h]
  | OTHER tag => simp [PollEvents.dispatch, react, sessionCalls, eventLines]

theorem xrPollEvent_cons (w : World) (eventData : XrEventDataBuffer)
    (rest : List XrEventDataBuffer) (hok : w.rt.succeeds)
    (hq : w.rt.eventQueue = eventData :: rest) :
    xrPollEvent w = (XR_SUCCESS, eventData,
      { w with rt := { w.rt with
          eventQueue := rest, calls := w.rt.calls ++ [.xrPollEvent (some eventData)] } }) := by
  have hok1 : ∀ t, XR_SUCCEEDED (w.rt.results t) = true := hok
  simp [xrPollEvent, World.answer, hok1, hq]

theorem xrPollEvent_nil (w : World) (hok : w.rt.succeeds) (hq : w.rt.eventQueue = []) :
    xrPollEvent w = (XR_EVENT_UNAVAILABLE, .OTHER XR_TYPE_EVENT_DATA_BUFFER,
      { w with rt := { w.rt with
          eventQueue := w.rt.laterEvents.headD [], laterEvents := w.rt.laterEvents.tail,
          calls := w.rt.calls ++ [.xrPollEvent none] } }) := by
  have hok1 : ∀ t, XR_SUCCEEDED (w.rt.results t) = true := hok
  simp [xrPollEvent, World.answer, hok1, hq]

theorem PollEvents_loop_ok (events : List XrEventDataBuffer) :
    ∀ (w : World) (k : Nat), w.rt.succeeds → w.rt.eventQueue = events →
      PollEvents.loop (events.length + 1 + k) w = .ok (drained w) := by
  induction events with
  | nil =>
    intro w k hok hq
    have hfuel : ([] : List XrEventDataBuffer).length + 1 + k = k + 1 := by simp; omega
    rw [hfuel]
    simp [PollEvents.loop, xrPollEvent_nil w hok hq, drained, hq, drainCalls, drainLines,
      XR_EVENT_UNAVAILABLE, XR_SUCCESS]
  | cons eventData rest ih =>
    intro w k hok hq
    have hfuel : (eventData :: rest).length + 1 + k = (rest.length + 1 + k) + 1 := by
      simp only [List.length_cons]
      omega
    rw [hfuel]
    simp only [PollEvents.loop, xrPollEvent_cons w eventData rest hok hq, if_true]
    rw [dispatch_ok _ _ (by exact hok)]
    simp only []
    rw [ih _ k (by exact hok) rfl]
    simp [drained, hq, drainCalls, drainLines]

theorem PollEvents_loop_short (fuel : Nat) :
    ∀ (w : World), w.rt.succeeds → fuel ≤ w.rt.eventQueue.length →
      PollEvents.loop fuel w = .error .outOfFuel := by
  induction fuel with
  | zero =>
    intro w _ _
    rfl
  | succ fuel ih =>
    intro w hok hlen
    cases hq : w.rt.eventQueue with
    | nil => simp [hq] at hlen
    | cons eventData rest =>
      simp only [PollEvents.loop, xrPollEvent_cons w eventData rest hok hq, if_true]
      rw [dispatch_ok _ _ (by exact hok)]
      simp only []
      apply ih _ (by exact hok)
      simp only [hq, List.length_cons] at hlen
      simpa using hlen

/-- A drain returns exactly when its fuel exceeds the number of queued events, and then in
the world `drained` describes. -/
theorem PollEvents_returns (fuel : Nat) (w w1 : World) (hok : w.rt.succeeds)
    (h : PollEvents fuel w = .ok w1) :
    w.rt.eventQueue.length < fuel ∧ w1 = drained w := by
  by_cases hlt : w.rt.eventQueue.length < fuel
  · obtain ⟨k, hk⟩ : ∃ k, fuel = w.rt.eventQueue.length + 1 + k := ⟨fuel - (w.rt.eventQueue.length + 1), by omega⟩
    rw [PollEvents, hk, PollEvents_loop_ok _ w k hok rfl] at h
    exact ⟨hlt, (Except.ok.inj h).symm⟩
  · rw [PollEvents, PollEvents_loop_short fuel w hok (by omega)] at h
    cases h

/-! ## One event at a time -/

theorem react_session (app : OpenXRTutorial) (eventData : XrEventDataBuffer) :
    (react app eventData).m_session = app.m_session := by
  cases eventData <;> simp only [react]
  split_ifs <;> rfl

theorem foldl_react_session (events : List XrEventDataBuffer) (app : OpenXRTutorial) :
    (events.foldl react app).m_session = app.m_session := by
  induction events generalizing app with
  | nil => rfl
  | cons e rest ih => rw [List.foldl_cons, ih, react_session]

theorem react_sessionRunning (app : OpenXRTutorial) (eventData : XrEventDataBuffer) :
    (react app eventData).m_sessionRunning =
      if IsReady app.m_session eventData then true
      else if IsStop app.m_session eventData ∨ isInstanceLoss eventData = true then false
      else app.m_sessionRunning := by
  cases eventData with
  | SESSION_STATE_CHANGED session state =>
    simp only [react, IsReady, IsStop, isInstanceLoss, XR_SESSION_STATE_READY,
      XR_SESSION_STATE_STOPPING, XR_SESSION_STATE_EXITING, XR_SESSION_STATE_LOSS_PENDING,
      XrEventDataBuffer.SESSION_STATE_CHANGED.injEq]
    by_cases hs : session = app.m_session
    · by_cases h1 : state = 2
      · subst h1; simp [hs]
      · by_cases h2 : state = 6
        · subst h2; simp [hs]
        · by_cases h3 : state = 8
          · subst h3; simp [hs]
          · by_cases h4 : state = 7
            · subst h4; simp [hs]
            · simp [hs, h1, h2, h3, h4]
    · simp [hs]
  | INSTANCE_LOSS_PENDING t => simp [react, isInstanceLoss]
  | EVENTS_LOST n => simp [react, isInstanceLoss]
  | INTERACTION_PROFILE_CHANGED s => simp [react, isInstanceLoss]
  | REFERENCE_SPACE_CHANGE_PENDING s => simp [react, isInstanceLoss]
  | OTHER tag => simp [react, isInstanceLoss]

theorem react_applicationRunning (app : OpenXRTutorial) (eventData : XrEventDataBuffer) :
    (react app eventData).m_applicationRunning =
      if IsTerminal app.m_session eventData then false else app.m_applicationRunning := by
  cases eventData with
  | SESSION_STATE_CHANGED session state =>
    simp only [react, IsTerminal, isInstanceLoss, XR_SESSION_STATE_READY,
      XR_SESSION_STATE_STOPPING, XR_SESSION_STATE_EXITING, XR_SESSION_STATE_LOSS_PENDING,
      XrEventDataBuffer.SESSION_STATE_CHANGED.injEq]
    by_cases hs : session = app.m_session
    · by_cases h1 : state = 2
      · subst h1; simp [hs]
      · by_cases h2 : state = 6
        · subst h2; simp [hs]
        · by_cases h3 : state = 8
          · subst h3; simp [hs]
          · by_cases h4 : state = 7
            · subst h4; simp [hs]
            · simp [hs, h1, h2, h3, h4]
    · simp [hs]
  | INSTANCE_LOSS_PENDING t => simp [react, isInstanceLoss]
  | EVENTS_LOST n => simp [react, isInstanceLoss]
  | INTERACTION_PROFILE_CHANGED s => simp [react, isInstanceLoss]
  | REFERENCE_SPACE_CHANGE_PENDING s => simp [react, isInstanceLoss]
  | OTHER tag => simp [react, isInstanceLoss]

theorem react_sessionState (app : OpenXRTutorial) (eventData : XrEventDataBuffer) :
    (react app eventData).m_sessionState =
      (ownedState app.m_session eventData).getD app.m_sessionState := by
  cases eventData with
  | SESSION_STATE_CHANGED session state =>
    by_cases hs : session = app.m_session
    · simp [react, ownedState, hs]
    · simp [react, ownedState, hs]
  | INSTANCE_LOSS_PENDING t => simp [react, ownedState]
  | EVENTS_LOST n => simp [react, ownedState]
  | INTERACTION_PROFILE_CHANGED s => simp [react, ownedState]
  | REFERENCE_SPACE_CHANGE_PENDING s => simp [react, ownedState]
  | OTHER tag => simp [react, ownedState]

/-! ## The running flag over a sequence of events -/

theorem foldl_react_stopped (events : List XrEventDataBuffer) (app : OpenXRTutorial)
    (h : ∃ e, (events.filter (fun x => decide (IsStateAffecting app.m_session x))).getLast?
        = some e ∧ IsStop app.m_session e) :
    (events.foldl react app).m_sessionRunning = false := by
  induction events using List.reverseRecOn with
  | nil => simp at h
  | append_singleton l x ih =>
    rw [List.foldl_append, List.foldl_cons, List.foldl_nil, react_sessionRunning,
      foldl_react_session]
    obtain ⟨e, he, hstop⟩ := h
    rw [List.filter_append] at he
    by_cases hx : IsStateAffecting app.m_session x
    · have hfx : List.filter (fun x => decide (IsStateAffecting app.m_session x)) [x] = [x] := by
        simp [List.filter, hx]
      rw [hfx, List.getLast?_concat] at he
      have hxe : x = e := Option.some.inj he
      subst hxe
      have hnr : ¬ IsReady app.m_session x := by
        intro hr
        rcases hstop with h1 | h1 | h1 <;>
          · rw [hr] at h1
            simp [XR_SESSION_STATE_READY, XR_SESSION_STATE_STOPPING, XR_SESSION_STATE_EXITING,
              XR_SESSION_STATE_LOSS_PENDING] at h1
      simp [hnr, hstop]
    · have hfx : List.filter (fun x => decide (IsStateAffecting app.m_session x)) [x] = [] := by
        simp [List.filter, hx]
      rw [hfx, List.append_nil] at he
      have hprev := ih ⟨e, he, hstop⟩
      have hnr : ¬ IsReady app.m_session x := fun hr => hx (Or.inl hr)
      rw [if_neg hnr, hprev]
      simp

theorem foldl_react_running (events : List XrEventDataBuffer) (app : OpenXRTutorial)
    (h0 : app.m_sessionRunning = false)
    (h : (events.foldl react app).m_sessionRunning = true) :
    ∃ before after, events =
        before ++ .SESSION_STATE_CHANGED app.m_session XR_SESSION_STATE_READY :: after ∧
      ∀ x ∈ after, ¬ IsStop app.m_session x := by
  induction events using List.reverseRecOn with
  | nil => simp [h0] at h
  | append_singleton l x ih =>
    rw [List.foldl_append, List.foldl_cons, List.foldl_nil, react_sessionRunning,
      foldl_react_session] at h
    by_cases hr : IsReady app.m_session x
    · exact ⟨l, [], by rw [hr], by simp⟩
    · rw [if_neg hr] at h
      by_cases hs : IsStop app.m_session x ∨ isInstanceLoss x = true
      · rw [if_pos hs] at h
        cases h
      · rw [if_neg hs] at h
        obtain ⟨before, after, hl, hafter⟩ := ih h
        refine ⟨before, after ++ [x], by rw [hl]; simp, ?_⟩
        intro y hy
        rcases List.mem_append.1 hy with hy | hy
        · exact hafter y hy
        · have hyx : y = x := by simpa using hy
          subst hyx
          exact fun hstop => hs (Or.inl hstop)

/-- C2: from a state where `m_sessionRunning` is false, and with the begin and end calls
succeeding, a drain of any queued event sequence returns; if the last state-affecting event
of the sequence carries Stopping, Exiting or LossPending then `m_sessionRunning` is false
at the end, and if `m_sessionRunning` is true at the end then the sequence holds a Ready
event for the owned session with no Stopping, Exiting or LossPending event for the owned
session after it. -/
theorem C2_running_flag_follows_last_state_event (w : World) (k : Nat)
    (hok : w.rt.succeeds) (h0 : w.app.m_sessionRunning = false) :
    ∃ w1, PollEvents (w.rt.eventQueue.length + 1 + k) w = .ok w1 ∧
      ((∃ e, (w.rt.eventQueue.filter
            (fun x => decide (IsStateAffecting w.app.m_session x))).getLast? = some e ∧
          IsStop w.app.m_session e) → w1.app.m_sessionRunning = false) ∧
      (w1.app.m_sessionRunning = true →
        ∃ before after, w.rt.eventQueue =
            before ++ .SESSION_STATE_CHANGED w.app.m_session XR_SESSION_STATE_READY :: after ∧
          ∀ x ∈ after, ¬ IsStop w.app.m_session x) := by
  refine ⟨drained w, PollEvents_loop_ok _ w k hok rfl, ?_, ?_⟩
  · intro h
    exact foldl_react_stopped _ _ h
  · intro h
    exact foldl_react_running _ _ h0 h

/-- C2 at the sequence Ready, Synchronized, Stopping: the drain returns with the flag false. -/
theorem C2_witness :
    (sessionWorld [.SESSION_STATE_CHANGED 3 XR_SESSION_STATE_READY,
        .SESSION_STATE_CHANGED 3 XR_SESSION_STATE_SYNCHRONIZED,
        .SESSION_STATE_CHANGED 3 XR_SESSION_STATE_STOPPING]).rt.succeeds ∧
    ∃ w1, PollEvents 4 (sessionWorld [.SESSION_STATE_CHANGED 3 XR_SESSION_STATE_READY,
        .SESSION_STATE_CHANGED 3 XR_SESSION_STATE_SYNCHRONIZED,
        .SESSION_STATE_CHANGED 3 XR_SESSION_STATE_STOPPING]) = .ok w1 ∧
      w1.app.m_sessionRunning = false := by
  refine ⟨fun _ => rfl, ?_⟩
  obtain ⟨w1, h, hstop, _⟩ := C2_running_flag_follows_last_state_event
    (sessionWorld [.SESSION_STATE_CHANGED 3 XR_SESSION_STATE_READY,
        .SESSION_STATE_CHANGED 3 XR_SESSION_STATE_SYNCHRONIZED,
        .SESSION_STATE_CHANGED 3 XR_SESSION_STATE_STOPPING]) 0 (fun _ => rfl) rfl
  exact ⟨w1, h, hstop ⟨.SESSION_STATE_CHANGED 3 XR_SESSION_STATE_STOPPING, by decide, by decide⟩⟩

/-! ## The stored session state -/

theorem foldl_react_sessionState (events : List XrEventDataBuffer) (app : OpenXRTutorial) :
    (events.foldl react app).m_sessionState =
      ((events.filterMap (ownedState app.m_session)).getLast?).getD app.m_sessionState := by
  induction events using List.reverseRecOn with
  | nil => simp
  | append_singleton l x ih =>
    rw [List.foldl_append, List.foldl_cons, List.foldl_nil, react_sessionState,
      foldl_react_session, List.filterMap_append, ih]
    cases hx : ownedState app.m_session x with
    | none => simp [List.filterMap, hx]
    | some state => simp [List.filterMap, hx, List.getLast?_concat]

/-- C3: from a state where `m_sessionState` is Unknown, after a drain of any queued event
sequence `m_sessionState` is the state carried by the last `SessionStateChanged` event whose
session is `m_session`, whatever that state is, and is still Unknown when there is no such
event; a `SessionStateChanged` event for another session changes no member at all. -/
theorem C3_session_state_is_last_owned_state (w : World) (k : Nat)
    (hok : w.rt.succeeds) (h0 : w.app.m_sessionState = XR_SESSION_STATE_UNKNOWN) :
    (∃ w1, PollEvents (w.rt.eventQueue.length + 1 + k) w = .ok w1 ∧
      w1.app.m_sessionState =
        ((w.rt.eventQueue.filterMap (ownedState w.app.m_session)).getLast?).getD
          XR_SESSION_STATE_UNKNOWN) ∧
    ∀ session state, session ≠ w.app.m_session →
      ∃ w2, PollEvents.dispatch w (.SESSION_STATE_CHANGED session state) = .ok w2 ∧
        w2.app = w.app ∧ w2.rt = w.rt := by
  refine ⟨⟨drained w, PollEvents_loop_ok _ w k hok rfl, ?_⟩, ?_⟩
  · show (w.rt.eventQueue.foldl react w.app).m_sessionState = _
    rw [foldl_react_sessionState, h0]
  · intro session state hne
    exact ⟨XR_TUT_LOG w "XrEventDataSessionStateChanged for unknown Session",
      by simp [PollEvents.dispatch, hne], rfl, rfl⟩

/-- C3 at a sequence with a foreign event last: the stored state is the one of the last owned
event, here Focused. -/
theorem C3_witness :
    (sessionWorld [.SESSION_STATE_CHANGED 3 XR_SESSION_STATE_READY,
        .SESSION_STATE_CHANGED 3 XR_SESSION_STATE_FOCUSED,
        .SESSION_STATE_CHANGED 9 XR_SESSION_STATE_EXITING]).rt.succeeds ∧
    ∃ w1, PollEvents 4 (sessionWorld [.SESSION_STATE_CHANGED 3 XR_SESSION_STATE_READY,
        .SESSION_STATE_CHANGED 3 XR_SESSION_STATE_FOCUSED,
        .SESSION_STATE_CHANGED 9 XR_SESSION_STATE_EXITING]) = .ok w1 ∧
      w1.app.m_sessionState = XR_SESSION_STATE_FOCUSED := by
  refine ⟨fun _ => rfl, ?_⟩
  obtain ⟨⟨w1, h, hstate⟩, _⟩ := C3_session_state_is_last_owned_state
    (sessionWorld [.SESSION_STATE_CHANGED 3 XR_SESSION_STATE_READY,
        .SESSION_STATE_CHANGED 3 XR_SESSION_STATE_FOCUSED,
        .SESSION_STATE_CHANGED 9 XR_SESSION_STATE_EXITING]) 0 (fun _ => rfl) rfl
  exact ⟨w1, h, hstate.trans (by decide)⟩

/-! ## Capability negotiation: the claims -/

theorem mem_of_mem_restrictTo (requested advertised : List String) (name : String)
    (h : name ∈ restrictTo requested advertised) : name ∈ advertised := by
  have h2 := (List.mem_filter.1 h).2
  simpa using h2

/-- C1: with a runtime that advertises the layers `layers` and the extensions `extensions`
and whose calls succeed, on an object whose accepted lists are still empty: the extension
loop of `CreateInstance` turns any requested list into its restriction to the advertised
extension names (exact text equality, order of the request), the layer loop does the same
with the advertised layer names, and `CreateInstance` returns with
`m_activeInstanceExtensions` the restriction of `m_instanceExtensions` and
`m_activeAPILayers` the restriction of `m_apiLayers`, so every accepted name is advertised. -/
theorem C1_accepted_lists_are_restrictions (w : World) (layers : List XrApiLayerProperties)
    (extensions : List XrExtensionProperties) (requested : List String)
    (hok : w.rt.succeeds) (hadv : w.rt.advertises layers extensions)
    (hlayers : w.app.m_activeAPILayers = []) (hexts : w.app.m_activeInstanceExtensions = []) :
    (CreateInstance.extensionLoop extensions requested w).app.m_activeInstanceExtensions
      = requested.filter (fun name => decide (name ∈ extensionNames extensions)) ∧
    (CreateInstance.layerLoop layers requested w).app.m_activeAPILayers
      = requested.filter (fun name => decide (name ∈ layerNames layers)) ∧
    ∃ w1, CreateInstance w = .ok w1 ∧
      w1.app.m_instanceExtensions = w.app.m_instanceExtensions ++
        [XR_EXT_DEBUG_UTILS_EXTENSION_NAME, w.graphicsExtension] ∧
      w1.app.m_apiLayers = w.app.m_apiLayers ∧
      w1.app.m_activeInstanceExtensions = w1.app.m_instanceExtensions.filter
        (fun name => decide (name ∈ extensionNames extensions)) ∧
      w1.app.m_activeAPILayers = w1.app.m_apiLayers.filter
        (fun name => decide (name ∈ layerNames layers)) ∧
      (∀ name ∈ w1.app.m_activeInstanceExtensions, name ∈ extensionNames extensions) ∧
      (∀ name ∈ w1.app.m_activeAPILayers, name ∈ layerNames layers) := by
  refine ⟨by simp [extensionLoop_eq, hexts, restrictTo],
    by simp [layerLoop_eq, hlayers, restrictTo], _, CreateInstance_ok w layers extensions hok hadv,
    by simp [requestedExtensions], rfl, by simp [hexts, restrictTo], by simp [hlayers, restrictTo],
    ?_, ?_⟩
  · intro name hname
    simp only [hexts, List.nil_append] at hname
    exact mem_of_mem_restrictTo _ _ _ hname
  · intro name hname
    simp only [hlayers, List.nil_append] at hname
    exact mem_of_mem_restrictTo _ _ _ hname

/-- C1 at the scenario: requested `A`, `B`, advertised `B`, `C`; the accepted list is `B`. -/
theorem C1_witness :
    (freshWorld ["A", "B"] [] [⟨"B"⟩, ⟨"C"⟩] [] []).rt.succeeds ∧
    (freshWorld ["A", "B"] [] [⟨"B"⟩, ⟨"C"⟩] [] []).rt.advertises [] [⟨"B"⟩, ⟨"C"⟩] ∧
    (CreateInstance.extensionLoop [⟨"B"⟩, ⟨"C"⟩] ["A", "B"]
      (freshWorld ["A", "B"] [] [⟨"B"⟩, ⟨"C"⟩] [] [])).app.m_activeInstanceExtensions = ["B"] ∧
    ∃ w1, CreateInstance (freshWorld ["A", "B"] [] [⟨"B"⟩, ⟨"C"⟩] [] []) = .ok w1 ∧
      w1.app.m_instanceExtensions = ["A", "B", "XR_EXT_debug_utils", "XR_KHR_vulkan_enable"] ∧
      w1.app.m_activeInstanceExtensions = ["B"] := by
  refine ⟨fun _ => rfl, ⟨fun _ => rfl, fun _ => rfl⟩, ?_⟩
  obtain ⟨hloop, _, w1, hrun, hreq, _, hacc, _⟩ := C1_accepted_lists_are_restrictions
    (freshWorld ["A", "B"] [] [⟨"B"⟩, ⟨"C"⟩] [] []) [] [⟨"B"⟩, ⟨"C"⟩] ["A", "B"]
    (fun _ => rfl) ⟨fun _ => rfl, fun _ => rfl⟩ rfl rfl
  refine ⟨hloop.trans (by decide), w1, hrun, hreq.trans (by decide), ?_⟩
  rw [hacc, hreq]
  decide

/-- C7, as stated, fails at its own scenario. With `A`, `B` requested and `B`, `C`
advertised, `CreateInstance` writes three error lines and not one: it first appends
`XR_EXT_debug_utils` and the graphics extension name to `m_instanceExtensions`, the runtime
advertises neither, and each of them gets its own line after the one for `A`. -/
theorem C7_counterexample :
    (CreateInstance (freshWorld ["A", "B"] [] [⟨"B"⟩, ⟨"C"⟩] [] [])).toOption.map
      (fun w1 => (w1.app.m_instanceExtensions, w1.app.m_activeInstanceExtensions, w1.err)) =
      some (["A", "B", "XR_EXT_debug_utils", "XR_KHR_vulkan_enable"], ["B"],
        ["Failed to find OpenXR instance extension: A",
         "Failed to find OpenXR instance extension: XR_EXT_debug_utils",
         "Failed to find OpenXR instance extension: XR_KHR_vulkan_enable"]) := by
  decide

/-- C7, amended: with a runtime that advertises the layers `layers` and the extensions
`extensions` and whose calls succeed, `CreateInstance` returns, and the list it checks is
`m_instanceExtensions` as it stood at entry followed by `XR_EXT_debug_utils` and the graphics
extension name. It writes to the error stream one line per name of that longer list that is
not advertised, naming it, in the order of that list, and nothing else, and nothing to the
output stream: no line for an advertised name, none for a layer. When the two appended names
are advertised, the lines are exactly those of the missing names of the entry list. Its
recorded calls are the two layer enumerations, the two extension enumerations and then
`xrCreateInstance` with the accepted layers and extensions, the accepted extensions being the
advertised names of the longer list. The extension loop alone writes one line per missing
name of whatever list it is given, and the layer loop writes nothing. -/
theorem C7_missing_extension_is_logged_not_fatal (w : World)
    (layers : List XrApiLayerProperties) (extensions : List XrExtensionProperties)
    (requested : List String) (hok : w.rt.succeeds) (hadv : w.rt.advertises layers extensions) :
    (∃ w1, CreateInstance w = .ok w1 ∧
      w1.app.m_instanceExtensions = w.app.m_instanceExtensions ++
        [XR_EXT_DEBUG_UTILS_EXTENSION_NAME, w.graphicsExtension] ∧
      w1.err = w.err ++
        ((w.app.m_instanceExtensions ++
            [XR_EXT_DEBUG_UTILS_EXTENSION_NAME, w.graphicsExtension]).filter
          (fun name => !decide (name ∈ extensionNames extensions))).map
          (fun name => "Failed to find OpenXR instance extension: " ++ name) ∧
      (XR_EXT_DEBUG_UTILS_EXTENSION_NAME ∈ extensionNames extensions →
        w.graphicsExtension ∈ extensionNames extensions →
        w1.err = w.err ++
          (w.app.m_instanceExtensions.filter
            (fun name => !decide (name ∈ extensionNames extensions))).map
            (fun name => "Failed to find OpenXR instance extension: " ++ name)) ∧
      w1.out = w.out ∧
      w1.rt.calls = w.rt.calls ++
        [.xrEnumerateApiLayerProperties 0, .xrEnumerateApiLayerProperties layers.length,
         .xrEnumerateInstanceExtensionProperties 0,
         .xrEnumerateInstanceExtensionProperties extensions.length,
         .xrCreateInstance
          { applicationName := "OpenXR Tutorial", applicationVersion := 1,
            engineName := "OpenXR Engine", engineVersion := 1,
            enabledApiLayerNames := w1.app.m_activeAPILayers,
            enabledExtensionNames := w1.app.m_activeInstanceExtensions }] ∧
      w1.app.m_activeInstanceExtensions = w.app.m_activeInstanceExtensions ++
        (w.app.m_instanceExtensions ++
            [XR_EXT_DEBUG_UTILS_EXTENSION_NAME, w.graphicsExtension]).filter
          (fun name => decide (name ∈ extensionNames extensions)) ∧
      w1.app.m_activeAPILayers = w.app.m_activeAPILayers ++
        w.app.m_apiLayers.filter (fun name => decide (name ∈ layerNames layers))) ∧
    (CreateInstance.extensionLoop extensions requested w).err = w.err ++
      (requested.filter (fun name => !decide (name ∈ extensionNames extensions))).map
        (fun name => "Failed to find OpenXR instance extension: " ++ name) ∧
    (CreateInstance.extensionLoop extensions requested w).out = w.out ∧
    (CreateInstance.layerLoop layers requested w).err = w.err ∧
    (CreateInstance.layerLoop layers requested w).out = w.out := by
  have hline : missingLine = fun name => "Failed to find OpenXR instance extension: " ++ name :=
    rfl
  refine ⟨⟨_, CreateInstance_ok w layers extensions hok hadv, ?_, ?_, ?_, rfl, ?_, ?_, ?_⟩,
    by simp [extensionLoop_eq, missingFrom, missingLine], by simp [extensionLoop_eq],
    by simp [layerLoop_eq], by simp [layerLoop_eq]⟩
  · simp [requestedExtensions]
  · simp [missingFrom, hline, requestedExtensions]
  · intro hdebug hgraphics
    simp [missingFrom, hline, requestedExtensions, List.filter_append, hdebug, hgraphics]
  · simp [instanceCreateInfo]
  · simp [restrictTo, requestedExtensions]
  · simp [restrictTo]

/-- C7, amended, at the scenario, whole `CreateInstance` with `A`, `B` requested: when `B`,
`C` and the two appended names are advertised there is one error line, for `A`, and
`xrCreateInstance` is the last call, with the accepted names; when only `B`, `C` are
advertised there are three lines. -/
theorem C7_witness :
    (freshWorld ["A", "B"] []
      [⟨"B"⟩, ⟨"C"⟩, ⟨"XR_EXT_debug_utils"⟩, ⟨"XR_KHR_vulkan_enable"⟩] [] []).rt.succeeds ∧
    (freshWorld ["A", "B"] []
      [⟨"B"⟩, ⟨"C"⟩, ⟨"XR_EXT_debug_utils"⟩, ⟨"XR_KHR_vulkan_enable"⟩] [] []).rt.advertises []
        [⟨"B"⟩, ⟨"C"⟩, ⟨"XR_EXT_debug_utils"⟩, ⟨"XR_KHR_vulkan_enable"⟩] ∧
    (∃ w1, CreateInstance (freshWorld ["A", "B"] []
          [⟨"B"⟩, ⟨"C"⟩, ⟨"XR_EXT_debug_utils"⟩, ⟨"XR_KHR_vulkan_enable"⟩] [] []) = .ok w1 ∧
      w1.err = ["Failed to find OpenXR instance extension: A"] ∧
      w1.app.m_activeInstanceExtensions = ["B", "XR_EXT_debug_utils", "XR_KHR_vulkan_enable"] ∧
      w1.rt.calls.getLast? = some (.xrCreateInstance
        { applicationName := "OpenXR Tutorial", applicationVersion := 1,
          engineName := "OpenXR Engine", engineVersion := 1,
          enabledApiLayerNames := [],
          enabledExtensionNames := ["B", "XR_EXT_debug_utils", "XR_KHR_vulkan_enable"] })) ∧
    ∃ w1, CreateInstance (freshWorld ["A", "B"] [] [⟨"B"⟩, ⟨"C"⟩] [] []) = .ok w1 ∧
      w1.err = ["Failed to find OpenXR instance extension: A",
        "Failed to find OpenXR instance extension: XR_EXT_debug_utils",
        "Failed to find OpenXR instance extension: XR_KHR_vulkan_enable"] := by
  refine ⟨fun _ => rfl, ⟨fun _ => rfl, fun _ => rfl⟩, ?_, ?_⟩
  · obtain ⟨⟨w1, hrun, _, _, hone, _, hcalls, hacc, hlay⟩, _⟩ :=
      C7_missing_extension_is_logged_not_fatal
        (freshWorld ["A", "B"] []
          [⟨"B"⟩, ⟨"C"⟩, ⟨"XR_EXT_debug_utils"⟩, ⟨"XR_KHR_vulkan_enable"⟩] [] []) []
        [⟨"B"⟩, ⟨"C"⟩, ⟨"XR_EXT_debug_utils"⟩, ⟨"XR_KHR_vulkan_enable"⟩] []
        (fun _ => rfl) ⟨fun _ => rfl, fun _ => rfl⟩
    have hacc1 : w1.app.m_activeInstanceExtensions =
        ["B", "XR_EXT_debug_utils", "XR_KHR_vulkan_enable"] := hacc.trans (by decide)
    have hlay1 : w1.app.m_activeAPILayers = [] := hlay.trans (by decide)
    refine ⟨w1, hrun, (hone (by decide) (by decide)).trans (by decide), hacc1, ?_⟩
    rw [hcalls, hacc1, hlay1]
    rfl
  · obtain ⟨⟨w1, hrun, _, herr, _⟩, _⟩ :=
      C7_missing_extension_is_logged_not_fatal
        (freshWorld ["A", "B"] [] [⟨"B"⟩, ⟨"C"⟩] [] []) [] [⟨"B"⟩, ⟨"C"⟩] []
        (fun _ => rfl) ⟨fun _ => rfl, fun _ => rfl⟩
    exact ⟨w1, hrun, herr.trans (by decide)⟩

/-! ## Draining -/

theorem sessionCalls_eq (app : OpenXRTutorial) (eventData : XrEventDataBuffer) :
    sessionCalls app eventData =
      if IsReady app.m_session eventData then [.xrBeginSession app.m_session]
      else if IsStopping app.m_session eventData then [.xrEndSession app.m_session]
      else [] := by
  cases eventData with
  | SESSION_STATE_CHANGED session state =>
    simp only [sessionCalls, IsReady, IsStopping, XR_SESSION_STATE_READY,
      XR_SESSION_STATE_STOPPING, XrEventDataBuffer.SESSION_STATE_CHANGED.injEq]
    by_cases hs : session = app.m_session
    · by_cases h1 : state = 2
      · subst h1; simp [hs]
      · by_cases h2 : state = 6
        · subst h2; simp [hs]
        · simp [hs, h1, h2]
    · simp [hs]
  | INSTANCE_LOSS_PENDING t => simp [sessionCalls, IsReady, IsStopping]
  | EVENTS_LOST n => simp [sessionCalls, IsReady, IsStopping]
  | INTERACTION_PROFILE_CHANGED s => simp [sessionCalls, IsReady, IsStopping]
  | REFERENCE_SPACE_CHANGE_PENDING s => simp [sessionCalls, IsReady, IsStopping]
  | OTHER tag => simp [sessionCalls, IsReady, IsStopping]

theorem polled_drainCalls (events : List XrEventDataBuffer) (app : OpenXRTutorial) :
    polled (drainCalls app events) = events.map some ++ [none] := by
  induction events generalizing app with
  | nil => simp [drainCalls, polled]
  | cons e rest ih =>
    have hs : polled (sessionCalls app e) = [] := by
      rw [sessionCalls_eq]
      split_ifs <;> simp [polled]
    have happ : ∀ a b, polled (a ++ b) = polled a ++ polled b := by
      intro a b
      simp [polled]
    have hcons : polled (drainCalls app (e :: rest)) =
        some e :: (polled (sessionCalls app e) ++ polled (drainCalls (react app e) rest)) := by
      simp [drainCalls, polled]
    rw [hcons, hs, ih]
    simp

theorem foldlM_dispatch_ok (events : List XrEventDataBuffer) :
    ∀ (w : World), w.rt.succeeds →
      ∃ w2, events.foldlM PollEvents.dispatch w = .ok w2 ∧
        w2.app = events.foldl react w.app ∧ w2.out = w.out ++ drainLines w.app events ∧
        w2.rt.results = w.rt.results := by
  induction events with
  | nil =>
    intro w _
    exact ⟨w, rfl, rfl, by simp [drainLines], rfl⟩
  | cons e rest ih =>
    intro w hok
    obtain ⟨w2, h2, happ, hout, hres⟩ := ih
      { w with
        app := react w.app e
        rt := { w.rt with calls := w.rt.calls ++ sessionCalls w.app e }
        out := w.out ++ eventLines w.app e } (by exact hok)
    refine ⟨w2, ?_, happ, ?_, hres⟩
    · rw [List.foldlM_cons, dispatch_ok w e hok]
      exact h2
    · rw [hout]
      simp [drainLines]

/-- C4: whatever the events queued and whatever the flags, when the calls succeed a drain
returns after exactly one poll per queued event, each handing back that event, in order,
and one more poll that finds nothing; none of the queued events is left (the queue then
holds the next scripted batch), and the members and the output are those of dispatching
the queued events one after the other. -/
theorem C4_drain_is_exhaustive (w : World) (k : Nat) (hok : w.rt.succeeds) :
    ∃ w1, PollEvents (w.rt.eventQueue.length + 1 + k) w = .ok w1 ∧
      (∃ new, w1.rt.calls = w.rt.calls ++ new ∧
        polled new = w.rt.eventQueue.map some ++ [none] ∧
        (polled new).length = w.rt.eventQueue.length + 1) ∧
      w1.rt.eventQueue = w.rt.laterEvents.headD [] ∧
      w1.rt.laterEvents = w.rt.laterEvents.tail ∧
      ∃ w2, w.rt.eventQueue.foldlM PollEvents.dispatch w = .ok w2 ∧
        w1.app = w2.app ∧ w1.out = w2.out := by
  obtain ⟨w2, h2, happ, hout, _⟩ := foldlM_dispatch_ok w.rt.eventQueue w hok
  refine ⟨drained w, PollEvents_loop_ok _ w k hok rfl,
    ⟨drainCalls w.app w.rt.eventQueue, rfl, polled_drainCalls _ _, ?_⟩, rfl, rfl,
    w2, h2, happ.symm, hout.symm⟩
  rw [polled_drainCalls]
  simp

/-- C4 at five queued events, terminal ones among them: six polls. -/
theorem C4_witness :
    (sessionWorld [.EVENTS_LOST 2, .SESSION_STATE_CHANGED 3 XR_SESSION_STATE_EXITING,
      .INSTANCE_LOSS_PENDING 0, .SESSION_STATE_CHANGED 3 XR_SESSION_STATE_READY,
      .OTHER 99]).rt.succeeds ∧
    ∃ w1, PollEvents 6 (sessionWorld [.EVENTS_LOST 2,
        .SESSION_STATE_CHANGED 3 XR_SESSION_STATE_EXITING, .INSTANCE_LOSS_PENDING 0,
        .SESSION_STATE_CHANGED 3 XR_SESSION_STATE_READY, .OTHER 99]) = .ok w1 ∧
      (polled w1.rt.calls).length = 6 ∧ w1.rt.eventQueue = [] := by
  refine ⟨fun _ => rfl, ?_⟩
  obtain ⟨w1, h, ⟨new, hnew, _, hlen⟩, hq, _⟩ := C4_drain_is_exhaustive
    (sessionWorld [.EVENTS_LOST 2, .SESSION_STATE_CHANGED 3 XR_SESSION_STATE_EXITING,
      .INSTANCE_LOSS_PENDING 0, .SESSION_STATE_CHANGED 3 XR_SESSION_STATE_READY,
      .OTHER 99]) 0 (fun _ => rfl)
  refine ⟨w1, h, ?_, hq⟩
  rw [hnew]
  exact hlen

/-! ## Begin and end calls -/

theorem not_stopping_of_ready (session : XrHandle) (e : XrEventDataBuffer)
    (h : IsReady session e) : ¬ IsStopping session e := by
  intro hs
  rw [IsReady] at h
  rw [IsStopping, h] at hs
  simp [XR_SESSION_STATE_READY, XR_SESSION_STATE_STOPPING] at hs

theorem triggered_ready (session : XrHandle) (e : XrEventDataBuffer) (h : IsReady session e) :
    triggered session e = some (.xrBeginSession session) := by
  unfold triggered
  rw [if_pos h]

theorem triggered_stopping (session : XrHandle) (e : XrEventDataBuffer)
    (h : IsStopping session e) : triggered session e = some (.xrEndSession session) := by
  unfold triggered
  rw [if_neg (fun hr => not_stopping_of_ready session e hr h), if_pos h]

theorem triggered_none (session : XrHandle) (e : XrEventDataBuffer)
    (h1 : ¬ IsReady session e) (h2 : ¬ IsStopping session e) : triggered session e = none := by
  unfold triggered
  rw [if_neg h1, if_neg h2]

theorem beginEndCalls_drainCalls (events : List XrEventDataBuffer) (app : OpenXRTutorial) :
    beginEndCalls (drainCalls app events) = events.filterMap (triggered app.m_session) := by
  induction events generalizing app with
  | nil => simp [drainCalls, beginEndCalls]
  | cons e rest ih =>
    have hcons : beginEndCalls (drainCalls app (e :: rest)) =
        beginEndCalls (sessionCalls app e) ++ beginEndCalls (drainCalls (react app e) rest) := by
      simp [drainCalls, beginEndCalls]
    rw [hcons, ih, react_session, sessionCalls_eq]
    by_cases h1 : IsReady app.m_session e
    · rw [if_pos h1, List.filterMap_cons_some (triggered_ready _ _ h1)]
      rfl
    · by_cases h2 : IsStopping app.m_session e
      · rw [if_neg h1, if_pos h2, List.filterMap_cons_some (triggered_stopping _ _ h2)]
        rfl
      · rw [if_neg h1, if_neg h2, List.filterMap_cons_none (triggered_none _ _ h1 h2)]
        rfl

theorem countP_begin_drainCalls (events : List XrEventDataBuffer) (app : OpenXRTutorial) :
    (drainCalls app events).countP isBeginCall =
      events.countP (fun e => decide (IsReady app.m_session e)) := by
  induction events generalizing app with
  | nil => simp [drainCalls, isBeginCall]
  | cons e rest ih =>
    have hcons : (drainCalls app (e :: rest)).countP isBeginCall =
        (sessionCalls app e).countP isBeginCall +
          (drainCalls (react app e) rest).countP isBeginCall := by
      simp [drainCalls, isBeginCall, List.countP_cons, List.countP_append]
    rw [hcons, ih, react_session, sessionCalls_eq]
    by_cases h1 : IsReady app.m_session e
    · have hd : decide (IsReady app.m_session e) = true := decide_eq_true h1
      simp only [if_pos h1, List.countP_cons, List.countP_nil, hd, isBeginCall, if_true]
      omega
    · have hd : decide (IsReady app.m_session e) = false := decide_eq_false h1
      by_cases h2 : IsStopping app.m_session e
      · simp only [if_neg h1, if_pos h2, List.countP_cons, List.countP_nil, hd, isBeginCall]
        simp
      · simp only [if_neg h1, if_neg h2, List.countP_cons, List.countP_nil, hd]
        simp

theorem countP_end_drainCalls (events : List XrEventDataBuffer) (app : OpenXRTutorial) :
    (drainCalls app events).countP isEndCall =
      events.countP (fun e => decide (IsStopping app.m_session e)) := by
  induction events generalizing app with
  | nil => simp [drainCalls, isEndCall]
  | cons e rest ih =>
    have hcons : (drainCalls app (e :: rest)).countP isEndCall =
        (sessionCalls app e).countP isEndCall +
          (drainCalls (react app e) rest).countP isEndCall := by
      simp [drainCalls, isEndCall, List.countP_cons, List.countP_append]
    rw [hcons, ih, react_session, sessionCalls_eq]
    by_cases h1 : IsReady app.m_session e
    · have hd : decide (IsStopping app.m_session e) = false :=
        decide_eq_false (not_stopping_of_ready _ _ h1)
      simp only [if_pos h1, List.countP_cons, List.countP_nil, hd, isEndCall]
      simp
    · by_cases h2 : IsStopping app.m_session e
      · have hd : decide (IsStopping app.m_session e) = true := decide_eq_true h2
        simp only [if_neg h1, if_pos h2, List.countP_cons, List.countP_nil, hd, isEndCall,
          if_true]
        omega
      · have hd : decide (IsStopping app.m_session e) = false := decide_eq_false h2
        simp only [if_neg h1, if_neg h2, List.countP_cons, List.countP_nil, hd]
        simp

/-- C5: when the calls succeed, the begin and end calls a drain records are, in order, one
`xrBeginSession` per Ready event and one `xrEndSession` per Stopping event of the owned
session among the queued events, and nothing for any other event; so the number of
`xrBeginSession` calls is the number of those Ready events and the number of `xrEndSession`
calls the number of those Stopping events. For Ready, Synchronized, Stopping on the owned
session there is one begin call, then one end call, and `m_sessionRunning` is false before
the first event, true once Ready is processed, true once Synchronized is processed and
false once Stopping is processed. -/
theorem C5_begin_end_calls_follow_events (w : World) (k : Nat) (hok : w.rt.succeeds) :
    (∃ w1, PollEvents (w.rt.eventQueue.length + 1 + k) w = .ok w1 ∧
      ∃ new, w1.rt.calls = w.rt.calls ++ new ∧
        beginEndCalls new = w.rt.eventQueue.filterMap (triggered w.app.m_session) ∧
        new.countP isBeginCall =
          w.rt.eventQueue.countP (fun e => decide (IsReady w.app.m_session e)) ∧
        new.countP isEndCall =
          w.rt.eventQueue.countP (fun e => decide (IsStopping w.app.m_session e))) ∧
    (PollEvents 4 (sessionWorld readySynchronizedStopping)).toOption.map
      (fun w1 => (w1.rt.calls.countP isBeginCall, w1.rt.calls.countP isEndCall,
        beginEndCalls w1.rt.calls)) = some (1, 1, [.xrBeginSession 3, .xrEndSession 3]) ∧
    [readySynchronizedStopping.take 0, readySynchronizedStopping.take 1,
      readySynchronizedStopping.take 2, readySynchronizedStopping.take 3].map
      (fun processed => (PollEvents 4 (sessionWorld processed)).toOption.map
        (fun w1 => w1.app.m_sessionRunning))
      = [some false, some true, some true, some false] :=
  ⟨⟨drained w, PollEvents_loop_ok _ w k hok rfl, drainCalls w.app w.rt.eventQueue, rfl,
    beginEndCalls_drainCalls _ _, countP_begin_drainCalls _ _, countP_end_drainCalls _ _⟩,
    by decide, by decide⟩

/-- C5 at a drain that finds Ready, Stopping, Ready on the owned session and a Ready event
of another session: begin, end, begin. -/
theorem C5_witness :
    (sessionWorld [.SESSION_STATE_CHANGED 3 XR_SESSION_STATE_READY,
        .SESSION_STATE_CHANGED 9 XR_SESSION_STATE_READY,
        .SESSION_STATE_CHANGED 3 XR_SESSION_STATE_STOPPING,
        .SESSION_STATE_CHANGED 3 XR_SESSION_STATE_READY]).rt.succeeds ∧
    ∃ w1, PollEvents 5 (sessionWorld [.SESSION_STATE_CHANGED 3 XR_SESSION_STATE_READY,
        .SESSION_STATE_CHANGED 9 XR_SESSION_STATE_READY,
        .SESSION_STATE_CHANGED 3 XR_SESSION_STATE_STOPPING,
        .SESSION_STATE_CHANGED 3 XR_SESSION_STATE_READY]) = .ok w1 ∧
      beginEndCalls w1.rt.calls = [.xrBeginSession 3, .xrEndSession 3, .xrBeginSession 3] ∧
      w1.rt.calls.countP isBeginCall = 2 ∧ w1.rt.calls.countP isEndCall = 1 := by
  refine ⟨fun _ => rfl, ?_⟩
  obtain ⟨⟨w1, h, new, hnew, horder, hbegin, hend⟩, _⟩ := C5_begin_end_calls_follow_events
    (sessionWorld [.SESSION_STATE_CHANGED 3 XR_SESSION_STATE_READY,
        .SESSION_STATE_CHANGED 9 XR_SESSION_STATE_READY,
        .SESSION_STATE_CHANGED 3 XR_SESSION_STATE_STOPPING,
        .SESSION_STATE_CHANGED 3 XR_SESSION_STATE_READY]) 0 (fun _ => rfl)
  have hcalls : w1.rt.calls = new := by rw [hnew]; rfl
  refine ⟨w1, h, ?_, ?_, ?_⟩
  · rw [hcalls]
    exact horder.trans (by decide)
  · rw [hcalls]
    exact hbegin.trans (by decide)
  · rw [hcalls]
    exact hend.trans (by decide)

/-! ## Instance loss -/

/-- C6: in every state, dispatching an `InstanceLossPending` event leaves `m_sessionRunning`
and `m_applicationRunning` false, records no runtime call at all (so neither `xrEndSession`
nor `xrBeginSession`) and keeps `m_sessionState`; and a drain that finds just that event
queued returns with both flags false, `m_sessionState` unchanged and only its two polls
recorded. -/
theorem C6_instance_loss_clears_both_flags (w : World) (lossTime : Int) (k : Nat)
    (hok : w.rt.succeeds) (hq : w.rt.eventQueue = [.INSTANCE_LOSS_PENDING lossTime]) :
    (∀ v : World, ∃ v1, PollEvents.dispatch v (.INSTANCE_LOSS_PENDING lossTime) = .ok v1 ∧
      v1.app.m_sessionRunning = false ∧ v1.app.m_applicationRunning = false ∧
      v1.rt.calls = v.rt.calls ∧ v1.app.m_sessionState = v.app.m_sessionState) ∧
    ∃ w1, PollEvents (w.rt.eventQueue.length + 1 + k) w = .ok w1 ∧
      w1.app.m_sessionRunning = false ∧ w1.app.m_applicationRunning = false ∧
      w1.rt.calls = w.rt.calls ++
        [.xrPollEvent (some (.INSTANCE_LOSS_PENDING lossTime)), .xrPollEvent none] ∧
      w1.app.m_sessionState = w.app.m_sessionState := by
  refine ⟨fun v => ⟨_, rfl, rfl, rfl, rfl, rfl⟩, drained w, PollEvents_loop_ok _ w k hok rfl, ?_⟩
  simp [drained, hq, react, drainCalls, sessionCalls]

/-- C6 while the session is running: both flags end false and no end call is recorded. -/
theorem C6_witness :
    ∃ w1, PollEvents 2
        { sessionWorld [.INSTANCE_LOSS_PENDING 5] with
          app := { (sessionWorld []).app with m_sessionRunning := true } } = .ok w1 ∧
      w1.app.m_sessionRunning = false ∧ w1.app.m_applicationRunning = false ∧
      w1.rt.calls = [.xrPollEvent (some (.INSTANCE_LOSS_PENDING 5)), .xrPollEvent none] ∧
      w1.app.m_sessionState = XR_SESSION_STATE_UNKNOWN :=
  (C6_instance_loss_clears_both_flags
    { sessionWorld [.INSTANCE_LOSS_PENDING 5] with
      app := { (sessionWorld []).app with m_sessionRunning := true } } 5 0
    (fun _ => rfl) rfl).2

/-! ## The two flags over a sequence of events -/

theorem not_ready_of_terminal (session : XrHandle) (e : XrEventDataBuffer)
    (h : IsTerminal session e) : ¬ IsReady session e := by
  intro hr
  rw [IsReady] at hr
  rw [IsTerminal, hr] at h
  simp [isInstanceLoss, XR_SESSION_STATE_READY, XR_SESSION_STATE_EXITING,
    XR_SESSION_STATE_LOSS_PENDING] at h

theorem react_terminal_sessionRunning (app : OpenXRTutorial) (e : XrEventDataBuffer)
    (h : IsTerminal app.m_session e) : (react app e).m_sessionRunning = false := by
  rw [react_sessionRunning, if_neg (not_ready_of_terminal _ _ h)]
  have hs : IsStop app.m_session e ∨ isInstanceLoss e = true := by
    rcases h with h | h | h
    · exact Or.inr h
    · exact Or.inl (Or.inr (Or.inl h))
    · exact Or.inl (Or.inr (Or.inr h))
  rw [if_pos hs]

theorem foldl_react_no_ready (events : List XrEventDataBuffer) (app : OpenXRTutorial)
    (h0 : app.m_sessionRunning = false) (h : ∀ x ∈ events, ¬ IsReady app.m_session x) :
    (events.foldl react app).m_sessionRunning = false := by
  induction events generalizing app with
  | nil => exact h0
  | cons e rest ih =>
    rw [List.foldl_cons]
    apply ih
    · rw [react_sessionRunning, if_neg (h e (List.mem_cons_self _ _)), h0]
      simp
    · intro x hx
      rw [react_session]
      exact h x (List.mem_cons_of_mem _ hx)

theorem foldl_react_applicationRunning (events : List XrEventDataBuffer)
    (app : OpenXRTutorial) :
    (events.foldl react app).m_applicationRunning =
      (app.m_applicationRunning &&
        !events.any (fun e => decide (IsTerminal app.m_session e))) := by
  induction events generalizing app with
  | nil => simp
  | cons e rest ih =>
    rw [List.foldl_cons, ih, react_session, react_applicationRunning, List.any_cons]
    by_cases h : IsTerminal app.m_session e
    · rw [if_pos h, decide_eq_true h]
      simp
    · rw [if_neg h, decide_eq_false h]
      simp

/-- C8, as stated, fails: on the owned session, Exiting followed by Ready. After the
terminal Exiting event the flags are false, and the Ready event processed next sets
`m_sessionRunning` to true again. -/
theorem C8_counterexample :
    IsTerminal 3 (.SESSION_STATE_CHANGED 3 XR_SESSION_STATE_EXITING) ∧
    (PollEvents 2 (sessionWorld [.SESSION_STATE_CHANGED 3 XR_SESSION_STATE_EXITING])).toOption.map
      (fun w1 => (w1.app.m_sessionRunning, w1.app.m_applicationRunning)) = some (false, false) ∧
    (PollEvents 3 (sessionWorld [.SESSION_STATE_CHANGED 3 XR_SESSION_STATE_EXITING,
      .SESSION_STATE_CHANGED 3 XR_SESSION_STATE_READY])).toOption.map
      (fun w1 => w1.app.m_sessionRunning) = some true := by
  decide

/-- C8, amended: `m_sessionRunning` begins false; when the calls succeed, a drain whose
queue holds a terminal event followed only by events that are not Ready events of the owned
session returns with `m_sessionRunning` false; and any later drain that starts with the
flag false and finds no Ready event of the owned session returns with it false. -/
theorem C8_running_flag_false_until_ready (w : World) (k : Nat)
    (before after : List XrEventDataBuffer) (e : XrEventDataBuffer)
    (hok : w.rt.succeeds) (hq : w.rt.eventQueue = before ++ e :: after)
    (hterminal : IsTerminal w.app.m_session e)
    (hafter : ∀ x ∈ after, ¬ IsReady w.app.m_session x) :
    OpenXRTutorial.constructed.m_sessionRunning = false ∧
    (∃ w1, PollEvents (w.rt.eventQueue.length + 1 + k) w = .ok w1 ∧
      w1.app.m_sessionRunning = false) ∧
    ∀ (v : World) (j : Nat), v.rt.succeeds → v.app.m_sessionRunning = false →
      (∀ x ∈ v.rt.eventQueue, ¬ IsReady v.app.m_session x) →
      ∃ v1, PollEvents (v.rt.eventQueue.length + 1 + j) v = .ok v1 ∧
        v1.app.m_sessionRunning = false := by
  refine ⟨rfl, ⟨drained w, PollEvents_loop_ok _ w k hok rfl, ?_⟩, ?_⟩
  · show (w.rt.eventQueue.foldl react w.app).m_sessionRunning = false
    rw [hq, List.foldl_append, List.foldl_cons]
    apply foldl_react_no_ready
    · apply react_terminal_sessionRunning
      rw [foldl_react_session]
      exact hterminal
    · intro x hx
      rw [react_session, foldl_react_session]
      exact hafter x hx
  · intro v j hv h0 hno
    exact ⟨drained v, PollEvents_loop_ok _ v j hv rfl, foldl_react_no_ready _ _ h0 hno⟩

/-- C8, amended, at Ready, Exiting, Synchronized, Stopping on the owned session. -/
theorem C8_witness :
    ∃ w1, PollEvents 5 (sessionWorld [.SESSION_STATE_CHANGED 3 XR_SESSION_STATE_READY,
        .SESSION_STATE_CHANGED 3 XR_SESSION_STATE_EXITING,
        .SESSION_STATE_CHANGED 3 XR_SESSION_STATE_SYNCHRONIZED,
        .SESSION_STATE_CHANGED 3 XR_SESSION_STATE_STOPPING]) = .ok w1 ∧
      w1.app.m_sessionRunning = false :=
  (C8_running_flag_false_until_ready
    (sessionWorld [.SESSION_STATE_CHANGED 3 XR_SESSION_STATE_READY,
        .SESSION_STATE_CHANGED 3 XR_SESSION_STATE_EXITING,
        .SESSION_STATE_CHANGED 3 XR_SESSION_STATE_SYNCHRONIZED,
        .SESSION_STATE_CHANGED 3 XR_SESSION_STATE_STOPPING]) 0
    [.SESSION_STATE_CHANGED 3 XR_SESSION_STATE_READY]
    [.SESSION_STATE_CHANGED 3 XR_SESSION_STATE_SYNCHRONIZED,
      .SESSION_STATE_CHANGED 3 XR_SESSION_STATE_STOPPING]
    (.SESSION_STATE_CHANGED 3 XR_SESSION_STATE_EXITING)
    (fun _ => rfl) rfl (by decide) (by decide)).2.1

/-- C9: `m_applicationRunning` begins true. When the calls succeed, after a drain of any
queued event sequence that starts with the flag true, the flag is false exactly when the
sequence holds an `InstanceLossPending` event or a `SessionStateChanged` event of the owned
session carrying Exiting or LossPending; a drain that starts with the flag false ends with
it false; and a drain of events none of which is terminal leaves the flag as it was. -/
theorem C9_application_flag_cleared_by_terminal_events_only (w : World) (k : Nat)
    (hok : w.rt.succeeds) :
    OpenXRTutorial.constructed.m_applicationRunning = true ∧
    ∃ w1, PollEvents (w.rt.eventQueue.length + 1 + k) w = .ok w1 ∧
      (w.app.m_applicationRunning = true →
        (w1.app.m_applicationRunning = false ↔
          ∃ e ∈ w.rt.eventQueue, IsTerminal w.app.m_session e)) ∧
      (w.app.m_applicationRunning = false → w1.app.m_applicationRunning = false) ∧
      ((∀ e ∈ w.rt.eventQueue, ¬ IsTerminal w.app.m_session e) →
        w1.app.m_applicationRunning = w.app.m_applicationRunning) := by
  refine ⟨rfl, drained w, PollEvents_loop_ok _ w k hok rfl, ?_, ?_, ?_⟩
  · intro h1
    show (w.rt.eventQueue.foldl react w.app).m_applicationRunning = false ↔ _
    rw [foldl_react_applicationRunning, h1]
    simp
  · intro h0
    show (w.rt.eventQueue.foldl react w.app).m_applicationRunning = false
    rw [foldl_react_applicationRunning, h0]
    simp
  · intro hno
    show (w.rt.eventQueue.foldl react w.app).m_applicationRunning = _
    rw [foldl_react_applicationRunning]
    have hany : w.rt.eventQueue.any (fun e => decide (IsTerminal w.app.m_session e)) = false := by
      rw [List.any_eq_false]
      intro x hx
      simpa using hno x hx
    rw [hany]
    simp

/-- C9 at a sequence with every kind of event that is not terminal: the flag stays true. -/
theorem C9_witness :
    ∃ w1, PollEvents 8 (sessionWorld [.EVENTS_LOST 1, .INTERACTION_PROFILE_CHANGED 3,
        .REFERENCE_SPACE_CHANGE_PENDING 3, .OTHER 99,
        .SESSION_STATE_CHANGED 9 XR_SESSION_STATE_EXITING,
        .SESSION_STATE_CHANGED 3 XR_SESSION_STATE_READY,
        .SESSION_STATE_CHANGED 3 XR_SESSION_STATE_STOPPING]) = .ok w1 ∧
      w1.app.m_applicationRunning = true := by
  obtain ⟨_, w1, h, _, _, hkeep⟩ := C9_application_flag_cleared_by_terminal_events_only
    (sessionWorld [.EVENTS_LOST 1, .INTERACTION_PROFILE_CHANGED 3,
        .REFERENCE_SPACE_CHANGE_PENDING 3, .OTHER 99,
        .SESSION_STATE_CHANGED 9 XR_SESSION_STATE_EXITING,
        .SESSION_STATE_CHANGED 3 XR_SESSION_STATE_READY,
        .SESSION_STATE_CHANGED 3 XR_SESSION_STATE_STOPPING]) 0 (fun _ => rfl)
  exact ⟨w1, h, (hkeep (by decide)).trans rfl⟩

/-! ## Stretches of a run -/

theorem Step.andThen {kind : XrCall → Bool} {v v1 v2 : World} (h1 : Step kind v v1)
    (h2 : Step kind v1 v2) : Step kind v v2 := by
  obtain ⟨r1, ⟨l1, c1, k1⟩, a1, p1⟩ := h1
  obtain ⟨r2, ⟨l2, c2, k2⟩, a2, p2⟩ := h2
  refine ⟨r2.trans r1, ⟨l1 ++ l2, by rw [c2, c1, List.append_assoc], ?_⟩, a2.trans a1,
    p2.trans p1⟩
  intro c hc
  rcases List.mem_append.1 hc with hc | hc
  · exact k1 c hc
  · exact k2 c hc

/-! ## The platform pump -/

theorem polled_append (a b : List XrCall) : polled (a ++ b) = polled a ++ polled b := by
  simp [polled]

theorem PollSystemEvents_rt (v : World) : (PollSystemEvents v).rt = v.rt := by
  unfold PollSystemEvents
  split
  · rfl
  · rfl
  · split_ifs <;> rfl

theorem PollSystemEvents_session (v : World) :
    (PollSystemEvents v).app.m_session = v.app.m_session := by
  unfold PollSystemEvents
  split
  · rfl
  · rfl
  · split_ifs <;> rfl

theorem PollSystemEvents_desktop (v : World) (h : v.android = none) :
    PollSystemEvents v = v := by
  unfold PollSystemEvents
  rw [h]

/-! ## Kinds of recorded calls -/

theorem setup_not_destroy (c : XrCall) (h : isSetupCall c = true) :
    isDestroySession c = false ∧ isDestroyInstance c = false ∧ isLoopCall c = false := by
  cases c <;> simp [isSetupCall, isDestroySession, isDestroyInstance, isLoopCall] at h ⊢

theorem loop_not_destroy (c : XrCall) (h : isLoopCall c = true) :
    isDestroySession c = false ∧ isDestroyInstance c = false := by
  cases c <;> simp [isLoopCall, isDestroySession, isDestroyInstance] at h ⊢

theorem messengerTeardown_kind (app : OpenXRTutorial) :
    ∀ c ∈ messengerTeardown app,
      isDestroySession c = false ∧ isDestroyInstance c = false ∧ isLoopCall c = false := by
  intro c hc
  unfold messengerTeardown at hc
  split_ifs at hc
  · simp at hc
    rw [hc]
    exact ⟨rfl, rfl, rfl⟩
  · simp at hc

theorem countP_zero_of_forall {p : XrCall → Bool} {l : List XrCall}
    (h : ∀ c ∈ l, p c = false) : l.countP p = 0 := by
  rw [List.countP_eq_zero]
  intro c hc
  rw [h c hc]
  simp

/-! ## What a returning call has done -/

theorem OPENXR_CHECK_returns (result : XrResult) (message : String) (x y : World)
    (h : OPENXR_CHECK result message x = .ok y) : y = x := by
  unfold OPENXR_CHECK at h
  split_ifs at h
  exact (Except.ok.inj h).symm

theorem bind_returns {α β : Type} (a : Except Stop α) (f : α → Except Stop β) (y : β)
    (h : (a >>= f) = .ok y) : ∃ x, a = .ok x ∧ f x = .ok y := by
  cases a with
  | error stop => simp [bind, Except.bind] at h
  | ok x => exact ⟨x, rfl, by simpa [bind, Except.bind] using h⟩

theorem Step.still (kind : XrCall → Bool) (v v1 : World) (hrt : v1.rt = v.rt)
    (hflag : v1.app.m_applicationRunning = v.app.m_applicationRunning)
    (hos : v1.android = v.android) : Step kind v v1 :=
  ⟨by rw [hrt], ⟨[], by rw [hrt]; simp, by simp⟩, hflag, hos⟩

theorem Step.recorded (kind : XrCall → Bool) (v : World) (c : XrCall) (hc : kind c = true) :
    Step kind v (v.record c) :=
  ⟨rfl, ⟨[c], rfl, by simpa using hc⟩, rfl, rfl⟩

theorem step_enumerateLayers (v : World) (capacity : Nat)
    (buffer : List XrApiLayerProperties) :
    Step isSetupCall v (xrEnumerateApiLayerProperties v capacity buffer).2.2.2 := by
  unfold xrEnumerateApiLayerProperties
  split_ifs <;> exact Step.recorded _ _ _ rfl

theorem step_enumerateExtensions (v : World) (capacity : Nat)
    (buffer : List XrExtensionProperties) :
    Step isSetupCall v (xrEnumerateInstanceExtensionProperties v capacity buffer).2.2.2 := by
  unfold xrEnumerateInstanceExtensionProperties
  split_ifs <;> exact Step.recorded _ _ _ rfl

theorem step_xrCreateInstance (v : World) (createInfo : XrInstanceCreateInfo) :
    Step isSetupCall v (xrCreateInstance v createInfo).2 := by
  unfold xrCreateInstance
  split_ifs
  · exact ⟨rfl, ⟨[.xrCreateInstance createInfo], rfl, by simp [isSetupCall]⟩, rfl, rfl⟩
  · exact Step.recorded _ _ _ rfl

theorem step_layerLoop (kind : XrCall → Bool) (properties : List XrApiLayerProperties)
    (requested : List String) (v : World) :
    Step kind v (CreateInstance.layerLoop properties requested v) := by
  rw [layerLoop_eq]
  exact Step.still _ _ _ rfl rfl rfl

theorem step_extensionLoop (kind : XrCall → Bool) (properties : List XrExtensionProperties)
    (requested : List String) (v : World) :
    Step kind v (CreateInstance.extensionLoop properties requested v) := by
  rw [extensionLoop_eq]
  exact Step.still _ _ _ rfl rfl rfl

theorem CreateInstance_returns (w v : World) (h : CreateInstance w = .ok v) :
    Step isSetupCall w v := by
  simp only [CreateInstance] at h
  obtain ⟨x1, h1, h⟩ := bind_returns _ _ _ h
  have e1 := OPENXR_CHECK_returns _ _ _ _ h1
  obtain ⟨x2, h2, h⟩ := bind_returns _ _ _ h
  have e2 := OPENXR_CHECK_returns _ _ _ _ h2
  obtain ⟨x3, h3, h⟩ := bind_returns _ _ _ h
  have e3 := OPENXR_CHECK_returns _ _ _ _ h3
  obtain ⟨x4, h4, h⟩ := bind_returns _ _ _ h
  have e4 := OPENXR_CHECK_returns _ _ _ _ h4
  have e5 := OPENXR_CHECK_returns _ _ _ _ h
  have s0 : Step isSetupCall w
      { w with app := { w.app with m_instanceExtensions :=
        (w.app.m_instanceExtensions ++ [XR_EXT_DEBUG_UTILS_EXTENSION_NAME]) ++
          [w.graphicsExtension] } } := Step.still _ _ _ rfl rfl rfl
  have s1 : Step isSetupCall w x1 := by
    rw [e1]
    exact s0.andThen (step_enumerateLayers _ _ _)
  have s2 : Step isSetupCall w x2 := by
    rw [e2]
    exact s1.andThen (step_enumerateLayers _ _ _)
  have s3 : Step isSetupCall w x3 := by
    rw [e3]
    exact (s2.andThen (step_layerLoop _ _ _ _)).andThen (step_enumerateExtensions _ _ _)
  have s4 : Step isSetupCall w x4 := by
    rw [e4]
    exact s3.andThen (step_enumerateExtensions _ _ _)
  rw [e5]
  exact (s4.andThen (step_extensionLoop _ _ _ _)).andThen (step_xrCreateInstance _ _)

theorem CreateDebugMessenger_returns (w v : World) (h : CreateDebugMessenger w = .ok v) :
    Step isSetupCall w v := by
  unfold CreateDebugMessenger at h
  split_ifs at h
  · unfold CreateOpenXRDebugUtilsMessenger at h
    split_ifs at h
    simp only [Except.ok.injEq] at h
    rw [← h]
    exact ⟨rfl, ⟨[.xrCreateDebugUtilsMessengerEXT w.app.m_xrInstance], rfl,
      by simp [isSetupCall]⟩, rfl, rfl⟩
  · rw [← Except.ok.inj h]
    exact Step.still _ _ _ rfl rfl rfl

theorem GetInstanceProperties_returns (w v : World) (h : GetInstanceProperties w = .ok v) :
    Step isSetupCall w v := by
  simp only [GetInstanceProperties] at h
  obtain ⟨x1, h1, h⟩ := bind_returns _ _ _ h
  have e1 := OPENXR_CHECK_returns _ _ _ _ h1
  have e2 : v = XR_TUT_LOG x1 _ := (Except.ok.inj h).symm
  rw [e2, e1]
  exact (Step.recorded isSetupCall w (.xrGetInstanceProperties w.app.m_xrInstance) rfl).andThen
    (Step.still _ _ _ rfl rfl rfl)

theorem step_xrGetSystem (v : World) (instance_ : XrHandle) :
    Step isSetupCall v (xrGetSystem v instance_).2 := by
  unfold xrGetSystem
  split_ifs
  · exact ⟨rfl, ⟨[.xrGetSystem instance_], rfl, by simp [isSetupCall]⟩, rfl, rfl⟩
  · exact Step.recorded _ _ _ rfl

theorem GetSystemID_returns (w v : World) (h : GetSystemID w = .ok v) :
    Step isSetupCall w v := by
  simp only [GetSystemID] at h
  obtain ⟨x1, h1, h⟩ := bind_returns _ _ _ h
  have e1 := OPENXR_CHECK_returns _ _ _ _ h1
  have e2 := OPENXR_CHECK_returns _ _ _ _ h
  rw [e2]
  have s1 : Step isSetupCall w x1 := by
    rw [e1]
    exact step_xrGetSystem _ _
  exact s1.andThen (Step.recorded isSetupCall x1 _ rfl)

theorem CreateSession_returns (w v : World) (h : CreateSession w = .ok v) :
    Step isSetupCall w v ∧
      v.rt.calls = w.rt.calls ++ [.xrCreateSession w.app.m_xrInstance w.app.m_systemID] := by
  simp only [CreateSession] at h
  have e1 := OPENXR_CHECK_returns _ _ _ _ h
  rw [e1]
  unfold xrCreateSession
  split_ifs
  · exact ⟨⟨rfl, ⟨[.xrCreateSession w.app.m_xrInstance w.app.m_systemID], rfl,
      by simp [isSetupCall]⟩, rfl, rfl⟩, rfl⟩
  · exact ⟨Step.recorded _ _ _ rfl, rfl⟩

/-- The part of `Run` in front of its loop, when it gets to the loop, has recorded setup
calls only, the last of them `xrCreateSession`. -/
theorem untilTeardown_returns (fuel : Nat) (w w1 : World)
    (h : Run.untilTeardown fuel w = .ok w1) :
    ∃ v, Run.loop fuel fuel v = .ok w1 ∧ Step isSetupCall w v ∧
      ∃ earlier instance_ systemId,
        v.rt.calls = earlier ++ [.xrCreateSession instance_ systemId] := by
  simp only [Run.untilTeardown] at h
  obtain ⟨a, ha, h⟩ := bind_returns _ _ _ h
  obtain ⟨b, hb, h⟩ := bind_returns _ _ _ h
  obtain ⟨c, hc, h⟩ := bind_returns _ _ _ h
  obtain ⟨d, hd, h⟩ := bind_returns _ _ _ h
  obtain ⟨e, he, h⟩ := bind_returns _ _ _ h
  have sa := CreateInstance_returns _ _ ha
  have sb := CreateDebugMessenger_returns _ _ hb
  have sc := GetInstanceProperties_returns _ _ hc
  have sd := GetSystemID_returns _ _ hd
  obtain ⟨se, hcalls⟩ := CreateSession_returns _ _ he
  exact ⟨e, h, (((sa.andThen sb).andThen sc).andThen sd).andThen se, _, _, _, hcalls⟩

theorem teardown_returns (w1 w2 : World) (h : Run.teardown w1 = .ok w2) :
    w2.rt.calls = w1.rt.calls ++ [.xrDestroySession w1.app.m_session] ++
      messengerTeardown w1.app ++ [.xrDestroyInstance w1.app.m_xrInstance] := by
  simp only [Run.teardown] at h
  obtain ⟨a, ha, h⟩ := bind_returns _ _ _ h
  obtain ⟨b, hb, h⟩ := bind_returns _ _ _ h
  have ea : a = w1.record (.xrDestroySession w1.app.m_session) :=
    OPENXR_CHECK_returns _ _ _ _ ha
  have ec : w2 = b.record (.xrDestroyInstance b.app.m_xrInstance) :=
    OPENXR_CHECK_returns _ _ _ _ h
  have eb : b.app = a.app ∧ b.rt.calls = a.rt.calls ++ messengerTeardown a.app := by
    unfold DestroyDebugMessenger at hb
    split_ifs at hb with hm
    · unfold DestroyOpenXRDebugUtilsMessenger at hb
      split_ifs at hb
      rw [← Except.ok.inj hb]
      exact ⟨rfl, by simp [messengerTeardown, hm, World.record]⟩
    · rw [← Except.ok.inj hb]
      exact ⟨rfl, by simp [messengerTeardown, hm]⟩
  rw [ec]
  show b.rt.calls ++ [XrCall.xrDestroyInstance b.app.m_xrInstance] = _
  rw [eb.2, eb.1, ea]
  rfl

theorem Quiet.rest (v : World) : Quiet v v :=
  ⟨⟨[], by simp, by simp, rfl⟩, rfl, rfl, rfl⟩

theorem Quiet.followedBy {v v1 v2 : World} (h1 : Quiet v v1) (h2 : Quiet v1 v2) : Quiet v v2 := by
  obtain ⟨⟨l1, c1, k1, p1⟩, s1, a1, f1⟩ := h1
  obtain ⟨⟨l2, c2, k2, p2⟩, s2, a2, f2⟩ := h2
  refine ⟨⟨l1 ++ l2, by rw [c2, c1, List.append_assoc], ?_, ?_⟩, s2.trans s1, a2.trans a1,
    f2.trans f1⟩
  · intro c hc
    rcases List.mem_append.1 hc with hc | hc
    · exact k1 c hc
    · exact k2 c hc
  · rw [polled_append, p1, p2]
    rfl

theorem sessionStateChanged_returns (v v1 : World) (state : XrSessionState)
    (h : PollEvents.sessionStateChanged v state = .ok v1) :
    Dispatched (state = XR_SESSION_STATE_EXITING ∨ state = XR_SESSION_STATE_LOSS_PENDING)
      v v1 := by
  simp only [PollEvents.sessionStateChanged] at h
  obtain ⟨x1, h1, h⟩ := bind_returns _ _ _ h
  obtain ⟨x2, h2, h⟩ := bind_returns _ _ _ h
  have q1 : Quiet v x1 := by
    split_ifs at h1
    · obtain ⟨y, hy, h1⟩ := bind_returns _ _ _ h1
      have ey : y = v.record (.xrBeginSession v.app.m_session) :=
        OPENXR_CHECK_returns _ _ _ _ hy
      rw [← Except.ok.inj h1, ey]
      exact ⟨⟨[.xrBeginSession v.app.m_session], rfl, by simp [isLoopCall], rfl⟩, rfl, rfl, rfl⟩
    · rw [← Except.ok.inj h1]
      exact Quiet.rest v
  have q2 : Quiet x1 x2 := by
    split_ifs at h2
    · obtain ⟨y, hy, h2⟩ := bind_returns _ _ _ h2
      have ey : y = x1.record (.xrEndSession x1.app.m_session) :=
        OPENXR_CHECK_returns _ _ _ _ hy
      rw [← Except.ok.inj h2, ey]
      exact ⟨⟨[.xrEndSession x1.app.m_session], rfl, by simp [isLoopCall], rfl⟩, rfl, rfl, rfl⟩
    · rw [← Except.ok.inj h2]
      exact Quiet.rest x1
  obtain ⟨hcalls, hsess, hos, hflag⟩ := q1.followedBy q2
  by_cases h3 : state = XR_SESSION_STATE_EXITING
  · have h4 : ¬ state = XR_SESSION_STATE_LOSS_PENDING := by
      rw [h3]
      decide
    simp only [if_pos h3, if_neg h4] at h
    rw [← Except.ok.inj h]
    exact ⟨hcalls, hsess, hos, fun _ => Or.inr (Or.inl h3)⟩
  · by_cases h4 : state = XR_SESSION_STATE_LOSS_PENDING
    · simp only [if_neg h3, if_pos h4] at h
      rw [← Except.ok.inj h]
      exact ⟨hcalls, hsess, hos, fun _ => Or.inr (Or.inr h4)⟩
    · simp only [if_neg h3, if_neg h4] at h
      rw [← Except.ok.inj h]
      exact ⟨hcalls, hsess, hos, fun hf => Or.inl (hflag ▸ hf)⟩

theorem dispatch_returns (v v1 : World) (eventData : XrEventDataBuffer)
    (h : PollEvents.dispatch v eventData = .ok v1) :
    Dispatched (IsTerminal v.app.m_session eventData) v v1 := by
  have hsame : ∀ line, Dispatched (IsTerminal v.app.m_session eventData) v (XR_TUT_LOG v line) :=
    fun line => ⟨⟨[], by simp [XR_TUT_LOG], by simp, rfl⟩, rfl, rfl, fun hf => Or.inl hf⟩
  cases eventData with
  | EVENTS_LOST n =>
    rw [← Except.ok.inj h]
    exact hsame _
  | INSTANCE_LOSS_PENDING t =>
    rw [← Except.ok.inj h]
    exact ⟨⟨[], by simp [XR_TUT_LOG], by simp, rfl⟩, rfl, rfl, fun _ => Or.inr (Or.inl rfl)⟩
  | INTERACTION_PROFILE_CHANGED session =>
    simp only [PollEvents.dispatch] at h
    split_ifs at h <;> rw [← Except.ok.inj h]
    · exact ⟨⟨[], by simp [XR_TUT_LOG], by simp, rfl⟩, rfl, rfl, fun hf => Or.inl hf⟩
    · exact hsame _
  | REFERENCE_SPACE_CHANGE_PENDING session =>
    simp only [PollEvents.dispatch] at h
    split_ifs at h <;> rw [← Except.ok.inj h]
    · exact ⟨⟨[], by simp [XR_TUT_LOG], by simp, rfl⟩, rfl, rfl, fun hf => Or.inl hf⟩
    · exact hsame _
  | SESSION_STATE_CHANGED session state =>
    simp only [PollEvents.dispatch] at h
    split_ifs at h with hs
    · rw [← Except.ok.inj h]
      exact hsame _
    · have hs2 : session = v.app.m_session := by
        by_contra hne
        exact hs hne
      obtain ⟨hcalls, hsess, hos, hflag⟩ := sessionStateChanged_returns v v1 state h
      refine ⟨hcalls, hsess, hos, fun hf => ?_⟩
      rcases hflag hf with h0 | h3 | h4
      · exact Or.inl h0
      · exact Or.inr (Or.inr (Or.inl (by rw [hs2, h3])))
      · exact Or.inr (Or.inr (Or.inr (by rw [hs2, h4])))
  | OTHER tag =>
    rw [← Except.ok.inj h]
    exact ⟨⟨[], by simp, by simp, rfl⟩, rfl, rfl, fun hf => Or.inl hf⟩

theorem xrPollEvent_cases (v : World) :
    (((xrPollEvent v).1 = XR_SUCCESS ∧ (xrPollEvent v).2.2.rt.calls =
        v.rt.calls ++ [.xrPollEvent (some (xrPollEvent v).2.1)]) ∨
      ((xrPollEvent v).1 ≠ XR_SUCCESS ∧ (xrPollEvent v).2.2.rt.calls =
        v.rt.calls ++ [.xrPollEvent none])) ∧
    (xrPollEvent v).2.2.app = v.app ∧ (xrPollEvent v).2.2.android = v.android := by
  unfold xrPollEvent
  split_ifs with hs
  · cases hq : v.rt.eventQueue with
    | nil =>
      refine ⟨Or.inr ⟨?_, rfl⟩, rfl, rfl⟩
      show XR_EVENT_UNAVAILABLE ≠ XR_SUCCESS
      decide
    | cons e rest => exact ⟨Or.inl ⟨rfl, rfl⟩, rfl, rfl⟩
  · refine ⟨Or.inr ⟨?_, rfl⟩, rfl, rfl⟩
    intro h0
    apply hs
    have h1 : v.answer = XR_SUCCESS := h0
    rw [h1]
    decide

theorem PollEvents_loop_returns (fuel : Nat) :
    ∀ (v v1 : World), PollEvents.loop fuel v = .ok v1 → ∃ added, Looped v v1 added := by
  induction fuel with
  | zero =>
    intro v v1 h
    simp [PollEvents.loop] at h
  | succ fuel ih =>
    intro v v1 h
    simp only [PollEvents.loop] at h
    obtain ⟨hpoll, happ, hos⟩ := xrPollEvent_cases v
    rcases hpoll with ⟨hres, hcalls⟩ | ⟨hres, hcalls⟩
    · rw [if_pos hres] at h
      cases hd : PollEvents.dispatch (xrPollEvent v).2.2 (xrPollEvent v).2.1 with
      | error stop => simp [hd] at h
      | ok u1 =>
        simp only [hd] at h
        obtain ⟨added2, c2, k2, s2, o2, f2⟩ := ih u1 v1 h
        obtain ⟨⟨added1, c1, k1, p1⟩, s1, o1, f1⟩ := dispatch_returns _ _ _ hd
        have hsess : (xrPollEvent v).2.2.app.m_session = v.app.m_session := by rw [happ]
        refine ⟨[.xrPollEvent (some (xrPollEvent v).2.1)] ++ added1 ++ added2, ?_, ?_, ?_, ?_, ?_⟩
        · rw [c2, c1, hcalls]
          simp
        · intro c hc
          rcases List.mem_append.1 hc with hc | hc
          · rcases List.mem_append.1 hc with hc | hc
            · have hcp : c = .xrPollEvent (some (xrPollEvent v).2.1) := by simpa using hc
              rw [hcp]
              rfl
            · exact k1 c hc
          · exact k2 c hc
        · rw [s2, s1, hsess]
        · rw [o2, o1, hos]
        · intro hf
          rw [polled_append, polled_append, p1]
          rcases f2 hf with h0 | ⟨e, he, hte⟩
          · rcases f1 h0 with h00 | hte
            · left
              rw [← happ]
              exact h00
            · right
              rw [hsess] at hte
              exact ⟨_, by simp [polled], hte⟩
          · right
            rw [s1, hsess] at hte
            exact ⟨e, by simp [he], hte⟩
    · rw [if_neg hres] at h
      rw [← Except.ok.inj h]
      refine ⟨[.xrPollEvent none], hcalls, by simp [isLoopCall], by rw [happ], hos, ?_⟩
      intro hf
      left
      rw [← happ]
      exact hf

/-- What a returning main loop has done, whatever the runtime answers: it recorded polls,
begin and end calls only, it left `m_applicationRunning` false and `m_session` alone, and
on a build without `__ANDROID__`, if it started with the flag true, one of its polls handed
back a terminal event. -/
theorem Run_loop_ended (pollFuel : Nat) :
    ∀ (ticks : Nat) (v v1 : World), Run.loop pollFuel ticks v = .ok v1 →
      ∃ added, v1.rt.calls = v.rt.calls ++ added ∧ (∀ c ∈ added, isLoopCall c = true) ∧
        v1.app.m_session = v.app.m_session ∧ v1.app.m_applicationRunning = false ∧
        (v.android = none → v.app.m_applicationRunning = true →
          ∃ e, some e ∈ polled added ∧ IsTerminal v.app.m_session e) := by
  intro ticks
  induction ticks with
  | zero =>
    intro v v1 h
    simp [Run.loop] at h
  | succ ticks ih =>
    intro v v1 h
    by_cases hrun : v.app.m_applicationRunning = true
    · simp only [Run.loop, hrun, if_true] at h
      cases hp : PollEvents pollFuel (PollSystemEvents v) with
      | error stop => simp [hp] at h
      | ok v2 =>
        simp only [hp] at h
        obtain ⟨added1, c1, k1, s1, o1, f1⟩ := PollEvents_loop_returns pollFuel _ _ hp
        obtain ⟨added2, c2, k2, s2, hstop, hterm⟩ := ih v2 v1 h
        refine ⟨added1 ++ added2, ?_, ?_, ?_, hstop, ?_⟩
        · rw [c2, c1, PollSystemEvents_rt, List.append_assoc]
        · intro c hc
          rcases List.mem_append.1 hc with hc | hc
          · exact k1 c hc
          · exact k2 c hc
        · rw [s2, s1, PollSystemEvents_session]
        · intro hdesk _
          rw [PollSystemEvents_desktop v hdesk] at s1 o1 f1
          rw [polled_append]
          by_cases h2 : v2.app.m_applicationRunning = true
          · obtain ⟨e, he, hte⟩ := hterm (o1.trans hdesk) h2
            rw [s1] at hte
            exact ⟨e, List.mem_append_right _ he, hte⟩
          · have h2f : v2.app.m_applicationRunning = false := by simpa using h2
            rcases f1 h2f with h0 | ⟨e, he, hte⟩
            · rw [hrun] at h0
              cases h0
            · exact ⟨e, List.mem_append_left _ he, hte⟩
    · have hstop : v.app.m_applicationRunning = false := by
        simpa using hrun
      simp only [Run.loop, hstop, Bool.false_eq_true, if_false] at h
      rw [← Except.ok.inj h]
      exact ⟨[], by simp, by simp, rfl, hstop, fun _ h1 => by rw [hstop] at h1; cases h1⟩

/-! ## The whole run -/

/-- C10, as stated, fails: a run whose only event is `InstanceLossPending` returns, its last
call being `xrDestroyInstance`, and when the loop ends and `xrDestroySession` is about to
be called `m_applicationRunning` is false while `m_sessionState` is still Unknown, neither
Exiting nor LossPending. -/
theorem C10_counterexample :
    (Run 2 (freshWorld [] [] [] [.INSTANCE_LOSS_PENDING 0] [])).toOption.map
      (fun w2 => w2.rt.calls.getLast?) = some (some (.xrDestroyInstance 1)) ∧
    (Run.untilTeardown 2 (freshWorld [] [] [] [.INSTANCE_LOSS_PENDING 0] [])).toOption.map
      (fun w1 => (w1.app.m_applicationRunning, w1.app.m_sessionState))
      = some (false, XR_SESSION_STATE_UNKNOWN) ∧
    XR_SESSION_STATE_UNKNOWN ≠ XR_SESSION_STATE_EXITING ∧
    XR_SESSION_STATE_UNKNOWN ≠ XR_SESSION_STATE_LOSS_PENDING := by
  decide

/-- C10, amended: for every run that starts with an empty call record and
`m_applicationRunning` true and that returns, whatever the runtime answered, the recorded
calls are setup calls (the last of them `xrCreateSession`), then the polls, begin and end
calls of the loop, then `xrDestroySession`, then at most the destruction of the debug
messenger, then `xrDestroyInstance`; so there is exactly one `xrDestroySession` and exactly
one `xrDestroyInstance`, in that order, after `xrCreateSession`, and no poll, begin or end
call after `xrDestroySession`. When `xrDestroySession` is called `m_applicationRunning` is
false, and on a build without `__ANDROID__` one of the polls before it handed back a
terminal event. -/
theorem C10_teardown_follows_the_loop (fuel : Nat) (w w2 : World)
    (hcalls : w.rt.calls = []) (hflag : w.app.m_applicationRunning = true)
    (hrun : Run fuel w = .ok w2) :
    ∃ w1 setup loop middle,
      Run.untilTeardown fuel w = .ok w1 ∧ Run.teardown w1 = .ok w2 ∧
      w1.rt.calls = setup ++ loop ∧
      w2.rt.calls = setup ++ loop ++ [.xrDestroySession w1.app.m_session] ++ middle ++
        [.xrDestroyInstance w1.app.m_xrInstance] ∧
      (∀ c ∈ setup, isSetupCall c = true) ∧
      (∃ instance_ systemId, XrCall.xrCreateSession instance_ systemId ∈ setup) ∧
      (∀ c ∈ loop, isLoopCall c = true) ∧
      (∀ c ∈ middle ++ [XrCall.xrDestroyInstance w1.app.m_xrInstance], isLoopCall c = false) ∧
      w2.rt.calls.countP isDestroySession = 1 ∧
      w2.rt.calls.countP isDestroyInstance = 1 ∧
      w1.app.m_applicationRunning = false ∧
      (w.android = none → ∃ e, some e ∈ polled loop ∧ IsTerminal w1.app.m_session e) := by
  simp only [Run] at hrun
  obtain ⟨w1, hU, hT⟩ := bind_returns _ _ _ hrun
  obtain ⟨v, hloop, sv, earlier, i, sys, hvcalls⟩ := untilTeardown_returns fuel w w1 hU
  obtain ⟨loop, hlcalls, hlkind, hsess, hstop, hterm⟩ := Run_loop_ended fuel fuel v w1 hloop
  obtain ⟨_, ⟨setup, hsetup, hskind⟩, hvflag, hvdesk⟩ := sv
  rw [hcalls, List.nil_append] at hsetup
  have hw1calls : w1.rt.calls = setup ++ loop := by rw [hlcalls, hsetup]
  have hw2calls : w2.rt.calls = setup ++ loop ++ [.xrDestroySession w1.app.m_session] ++
      messengerTeardown w1.app ++ [.xrDestroyInstance w1.app.m_xrInstance] := by
    rw [teardown_returns w1 w2 hT, hw1calls]
  have hs0 : setup.countP isDestroySession = 0 :=
    countP_zero_of_forall (fun c hc => (setup_not_destroy c (hskind c hc)).1)
  have hs1 : setup.countP isDestroyInstance = 0 :=
    countP_zero_of_forall (fun c hc => (setup_not_destroy c (hskind c hc)).2.1)
  have hl0 : loop.countP isDestroySession = 0 :=
    countP_zero_of_forall (fun c hc => (loop_not_destroy c (hlkind c hc)).1)
  have hl1 : loop.countP isDestroyInstance = 0 :=
    countP_zero_of_forall (fun c hc => (loop_not_destroy c (hlkind c hc)).2)
  have hm0 : (messengerTeardown w1.app).countP isDestroySession = 0 :=
    countP_zero_of_forall (fun c hc => (messengerTeardown_kind _ c hc).1)
  have hm1 : (messengerTeardown w1.app).countP isDestroyInstance = 0 :=
    countP_zero_of_forall (fun c hc => (messengerTeardown_kind _ c hc).2.1)
  refine ⟨w1, setup, loop, messengerTeardown w1.app, hU, hT, hw1calls, hw2calls, hskind,
    ⟨i, sys, ?_⟩, hlkind, ?_, ?_, ?_, hstop, ?_⟩
  · rw [← hsetup, hvcalls]
    simp
  · intro c hc
    rcases List.mem_append.1 hc with hc | hc
    · exact (messengerTeardown_kind _ c hc).2.2
    · have hcd : c = .xrDestroyInstance w1.app.m_xrInstance := by simpa using hc
      rw [hcd]
      rfl
  · rw [hw2calls]
    simp only [List.countP_append, hs0, hl0, hm0]
    simp [isDestroySession]
  · rw [hw2calls]
    simp only [List.countP_append, hs1, hl1, hm1]
    simp [isDestroyInstance]
  · intro hdesk
    obtain ⟨e, he, hte⟩ := hterm (hvdesk.trans hdesk) (hvflag.trans hflag)
    rw [← hsess] at hte
    exact ⟨e, he, hte⟩

/-- C10, amended, at a run that sees Ready, then Stopping and Exiting two ticks later. -/
theorem C10_witness :
    ∃ w2, Run 4 lifecycleWorld = .ok w2 ∧
      w2.rt.calls.countP isDestroySession = 1 ∧ w2.rt.calls.countP isDestroyInstance = 1 := by
  have hrun : ∃ w2, Run 4 lifecycleWorld = .ok w2 := ⟨_, rfl⟩
  obtain ⟨w2, h⟩ := hrun
  obtain ⟨_, _, _, _, _, _, _, _, _, _, _, _, h1, h2, _⟩ := C10_teardown_follows_the_loop 4
    lifecycleWorld w2 rfl rfl h
  exact ⟨w2, h, h1, h2⟩

/-! ## A count that changes between the size query and the fill call -/

theorem twoCall_refused {α : Type} (advertised buffer : List α) (capacity : Nat)
    (h0 : 0 < capacity) (h1 : capacity < advertised.length) :
    twoCall advertised capacity buffer =
      (XR_ERROR_SIZE_INSUFFICIENT, advertised.length, buffer) := by
  have hne : capacity ≠ 0 := by omega
  simp [twoCall, hne, h1]

theorem twoCall_stale {α : Type} (blank : α) (atQuery atFill : List α)
    (h : ¬ CapacityRefused atQuery atFill) :
    twoCall atFill atQuery.length (List.replicate atQuery.length blank) =
      (XR_SUCCESS, atFill.length, staleBuffer blank atQuery atFill) := by
  by_cases h0 : atQuery.length = 0
  · simp [twoCall, staleBuffer, h0]
  · have h1 : ¬ atQuery.length < atFill.length := fun hlt => h ⟨by omega, hlt⟩
    simp [twoCall, staleBuffer, h0, h1, List.drop_replicate]

theorem not_XR_SUCCEEDED_SIZE_INSUFFICIENT :
    XR_SUCCEEDED XR_ERROR_SIZE_INSUFFICIENT = false := by decide

/-- C11, as stated, fails. When the count grows from one to two between the size query and
the fill call of the extension enumeration, the fill call is refused and `CreateInstance`
stops with a fatal error instead of asking again. When it shrinks from two to one,
`CreateInstance` returns having called the enumeration twice and no third time, and the
intersection is taken with the buffer sized by the stale count, whose blank second entry
lets the requested empty name through although the runtime never advertised it. -/
theorem C11_counterexample :
    failure (CreateInstance (driftingWorld [] [⟨"B"⟩] [⟨"B"⟩, ⟨"C"⟩])) =
      some (.fatal "Failed to enumerate InstanceExtensionProperties.") ∧
    (CreateInstance (driftingWorld [""] [⟨"B"⟩, ⟨"C"⟩] [⟨"B"⟩])).toOption.map
      (fun w1 => (w1.rt.calls.filter (fun c => match c with
          | .xrEnumerateInstanceExtensionProperties _ => true
          | _ => false), w1.app.m_activeInstanceExtensions)) =
      some ([.xrEnumerateInstanceExtensionProperties 0,
        .xrEnumerateInstanceExtensionProperties 2], [""]) := by
  decide

/-- C11, amended: with calls that otherwise succeed, `CreateInstance` issues each enumeration
twice and never asks again. If the layer count grew past a nonzero size-query count the
layer fill call is refused and `CreateInstance` stops with a fatal error; likewise for the
extension count; otherwise it returns with exactly the two layer calls, the two extension
calls and `xrCreateInstance` recorded, and the accepted lists are the requested names found
in the buffers sized by the size-query counts (what is advertised at the fill call, then
blank entries). -/
theorem C11_enumeration_is_not_repeated (w : World)
    (layersAtQuery layersAtFill : List XrApiLayerProperties)
    (extensionsAtQuery extensionsAtFill : List XrExtensionProperties)
    (hok : w.rt.succeeds)
    (hL0 : w.rt.apiLayers w.rt.calls.length = layersAtQuery)
    (hL1 : w.rt.apiLayers (w.rt.calls.length + 1) = layersAtFill)
    (hE0 : w.rt.instanceExtensions (w.rt.calls.length + 2) = extensionsAtQuery)
    (hE1 : w.rt.instanceExtensions (w.rt.calls.length + 3) = extensionsAtFill) :
    (CapacityRefused layersAtQuery layersAtFill →
      CreateInstance w = .error (.fatal "Failed to enumerate ApiLayerProperties.")) ∧
    (¬ CapacityRefused layersAtQuery layersAtFill →
      CapacityRefused extensionsAtQuery extensionsAtFill →
      CreateInstance w = .error (.fatal "Failed to enumerate InstanceExtensionProperties.")) ∧
    (¬ CapacityRefused layersAtQuery layersAtFill →
      ¬ CapacityRefused extensionsAtQuery extensionsAtFill →
      ∃ w1, CreateInstance w = .ok w1 ∧
        w1.rt.calls = w.rt.calls ++
          [.xrEnumerateApiLayerProperties 0,
           .xrEnumerateApiLayerProperties layersAtQuery.length,
           .xrEnumerateInstanceExtensionProperties 0,
           .xrEnumerateInstanceExtensionProperties extensionsAtQuery.length,
           .xrCreateInstance (instanceCreateInfo w1.app.m_activeAPILayers
             w1.app.m_activeInstanceExtensions)] ∧
        w1.app.m_activeAPILayers = w.app.m_activeAPILayers ++
          w.app.m_apiLayers.filter (fun name => decide (name ∈
            layerNames (staleBuffer ⟨""⟩ layersAtQuery layersAtFill))) ∧
        w1.app.m_activeInstanceExtensions = w.app.m_activeInstanceExtensions ++
          w1.app.m_instanceExtensions.filter (fun name => decide (name ∈
            extensionNames (staleBuffer ⟨""⟩ extensionsAtQuery extensionsAtFill)))) := by
  have hok1 : ∀ t, XR_SUCCEEDED (w.rt.results t) = true := hok
  have hE0b : w.rt.instanceExtensions (w.rt.calls.length + 1 + 1) = extensionsAtQuery := hE0
  have hE1b : w.rt.instanceExtensions (w.rt.calls.length + 1 + 1 + 1) = extensionsAtFill := hE1
  refine ⟨?_, ?_, ?_⟩
  · intro hL
    simp [CreateInstance, xrEnumerateApiLayerProperties, World.answer, World.record,
      OPENXR_CHECK, hok1, hL0, hL1, twoCall_query, XR_SUCCEEDED_SUCCESS,
      twoCall_refused _ _ _ hL.1 hL.2, not_XR_SUCCEEDED_SIZE_INSUFFICIENT, bind, Except.bind]
  · intro hL hE
    simp [CreateInstance, xrEnumerateApiLayerProperties,
      xrEnumerateInstanceExtensionProperties, World.answer, World.record,
      OPENXR_CHECK, hok1, hL0, hL1, hE0, hE1, hE0b, hE1b, twoCall_query, XR_SUCCEEDED_SUCCESS,
      twoCall_stale _ _ _ hL, twoCall_refused _ _ _ hE.1 hE.2,
      not_XR_SUCCEEDED_SIZE_INSUFFICIENT, bind, Except.bind, layerLoop_eq]
  · intro hL hE
    refine ⟨
      { w with
        app := { w.app with
          m_instanceExtensions := requestedExtensions w
          m_activeAPILayers := w.app.m_activeAPILayers ++
            restrictTo w.app.m_apiLayers
              (layerNames (staleBuffer ⟨""⟩ layersAtQuery layersAtFill))
          m_activeInstanceExtensions := w.app.m_activeInstanceExtensions ++
            restrictTo (requestedExtensions w)
              (extensionNames (staleBuffer ⟨""⟩ extensionsAtQuery extensionsAtFill))
          m_xrInstance := w.rt.instanceHandle }
        rt := { w.rt with calls := w.rt.calls ++
          [.xrEnumerateApiLayerProperties 0,
           .xrEnumerateApiLayerProperties layersAtQuery.length,
           .xrEnumerateInstanceExtensionProperties 0,
           .xrEnumerateInstanceExtensionProperties extensionsAtQuery.length,
           .xrCreateInstance (instanceCreateInfo
              (w.app.m_activeAPILayers ++ restrictTo w.app.m_apiLayers
                (layerNames (staleBuffer ⟨""⟩ layersAtQuery layersAtFill)))
              (w.app.m_activeInstanceExtensions ++ restrictTo (requestedExtensions w)
                (extensionNames (staleBuffer ⟨""⟩ extensionsAtQuery extensionsAtFill))))] }
        err := w.err ++ (missingFrom (requestedExtensions w)
          (extensionNames (staleBuffer ⟨""⟩ extensionsAtQuery extensionsAtFill))).map
            missingLine }, ?_, rfl, rfl, rfl⟩
    simp [CreateInstance, xrEnumerateApiLayerProperties,
      xrEnumerateInstanceExtensionProperties, xrCreateInstance, World.answer, World.record,
      OPENXR_CHECK, hok1, hL0, hL1, hE0, hE1, hE0b, hE1b, twoCall_query,
      XR_SUCCEEDED_SUCCESS, twoCall_stale _ _ _ hL, twoCall_stale _ _ _ hE, bind,
      Except.bind, layerLoop_eq, extensionLoop_eq, requestedExtensions, instanceCreateInfo]

/-- C11, amended, at an extension count that grows from one to two (the fill call is
refused, `CreateInstance` stops) and at one that shrinks from two to one (`CreateInstance`
returns with five calls recorded and the requested empty name accepted). -/
theorem C11_witness :
    (driftingWorld [] [⟨"B"⟩] [⟨"B"⟩, ⟨"C"⟩]).rt.succeeds ∧
    CapacityRefused [XrExtensionProperties.mk "B"] [⟨"B"⟩, ⟨"C"⟩] ∧
    CreateInstance (driftingWorld [] [⟨"B"⟩] [⟨"B"⟩, ⟨"C"⟩]) =
      .error (.fatal "Failed to enumerate InstanceExtensionProperties.") ∧
    ∃ w1, CreateInstance (driftingWorld [""] [⟨"B"⟩, ⟨"C"⟩] [⟨"B"⟩]) = .ok w1 ∧
      w1.rt.calls.length = 5 ∧ w1.app.m_activeInstanceExtensions = [""] := by
  refine ⟨fun _ => rfl, by decide, ?_, ?_⟩
  · exact (C11_enumeration_is_not_repeated (driftingWorld [] [⟨"B"⟩] [⟨"B"⟩, ⟨"C"⟩])
      [] [] [⟨"B"⟩] [⟨"B"⟩, ⟨"C"⟩] (fun _ => rfl) rfl rfl rfl rfl).2.1 (by decide) (by decide)
  · obtain ⟨w1, h, hcalls, _, hexts⟩ :=
      (C11_enumeration_is_not_repeated (driftingWorld [""] [⟨"B"⟩, ⟨"C"⟩] [⟨"B"⟩])
        [] [] [⟨"B"⟩, ⟨"C"⟩] [⟨"B"⟩] (fun _ => rfl) rfl rfl rfl rfl).2.2
        (by decide) (by decide)
    have hreq : (CreateInstance (driftingWorld [""] [⟨"B"⟩, ⟨"C"⟩] [⟨"B"⟩])).toOption.map
        (fun w2 => w2.app.m_instanceExtensions) =
        some ["", "XR_EXT_debug_utils", "XR_KHR_vulkan_enable"] := by decide
    rw [h] at hreq
    have hreq1 : w1.app.m_instanceExtensions =
        ["", "XR_EXT_debug_utils", "XR_KHR_vulkan_enable"] := by
      simpa [Except.toOption] using hreq
    refine ⟨w1, h, ?_, ?_⟩
    · rw [hcalls]; rfl
    · rw [hexts, hreq1]; decide

end Tutorial
